import Mathlib

/-!
Verification of the Signatures content-assembly tool
(`learning/questions.py`, `learning/signatures_content.py`,
`learning/signatures_rules.py`, `learning/signatures_engine.py`).

The Python sources are shallowly embedded: dictionaries become association
lists (`List (key × value)`) with Python-dict insertion semantics (an
assignment to an existing key replaces the value in place, a new key is
appended), `str` methods are re-implemented over `String.data` so that every
definition evaluates inside the kernel, and code that can raise returns
`Except`.  All definitions are translated from the source files; section
comments cite the function and line they embed.
-/

namespace SignaturesModel

/-! ### String primitives mirroring the Python `str` methods used by the code.
These re-implement `lower()`, `upper()`, `strip()`, substring containment and
`str.count` (non-overlapping, left-to-right) over `String.data`, matching
CPython behaviour on the ASCII data that appears in this repository. -/

/-- Python `s.lower()` (ASCII range, which covers all codes in the data). -/
def sLower (s : String) : String := String.mk (s.data.map Char.toLower)

/-- Python `s.upper()` (ASCII range, which covers all codes in the data). -/
def sUpper (s : String) : String := String.mk (s.data.map Char.toUpper)

/-- Python `s.strip()`: remove leading and trailing whitespace. -/
def sTrim (s : String) : String :=
  String.mk (((s.data.dropWhile Char.isWhitespace).reverse.dropWhile Char.isWhitespace).reverse)

/-- Does `pat` occur at the head of `l`? -/
def startsWithL (pat l : List Char) : Bool :=
  match pat, l with
  | [], _ => true
  | _ :: _, [] => false
  | p :: ps, c :: cs => p = c && startsWithL ps cs

/-- Worker for `countOccs`: scan `l`; while the skip counter is positive the
characters consumed by the previous match are passed over, exactly as
CPython's `str.count` counts non-overlapping occurrences left to right. -/
def countOccsAux (pat : List Char) : List Char → Nat → Nat
  | [], _ => 0
  | _ :: rest, Nat.succ k => countOccsAux pat rest k
  | c :: rest, 0 =>
      if startsWithL pat (c :: rest) then 1 + countOccsAux pat rest (pat.length - 1)
      else countOccsAux pat rest 0

/-- Python `s.count(pat)` for non-empty `pat`; `0 < countOccs pat s` is
Python `pat in s`. -/
def countOccs (pat s : String) : Nat := countOccsAux pat.data s.data 0

/-- Lexicographic comparison of char lists by code point, as Python compares
`str` values. -/
def listStrLt : List Char → List Char → Bool
  | [], [] => false
  | [], _ :: _ => true
  | _ :: _, [] => false
  | a :: as, b :: bs =>
      if a.toNat < b.toNat then true
      else if b.toNat < a.toNat then false
      else listStrLt as bs

/-- Python `a < b` on strings. -/
def strLt (a b : String) : Bool := listStrLt a.data b.data

/-- A decimal digit string to a number, `none` if empty or non-digit. -/
def digitsToNat? : List Char → Option Nat
  | [] => none
  | l => l.foldl (fun acc c => match acc with
      | none => none
      | some n => if c.isDigit then some (n * 10 + (c.toNat - 48)) else none) (some 0)

/-- Model of Python `int(s)` on a string: optional surrounding whitespace,
optional sign, then decimal digits (digit-group underscores are not used by
any data in this repository and are not modelled). -/
def pyStrToInt? (s : String) : Option Int :=
  match (sTrim s).data with
  | '-' :: rest => (digitsToNat? rest).map (fun n => -(n : Int))
  | '+' :: rest => (digitsToNat? rest).map (fun n => (n : Int))
  | l => (digitsToNat? l).map (fun n => (n : Int))

/-! ### Python values and dictionaries. -/

/-- The Python values that reach `clamp_driver` in this code base: ints,
bools (Python `int(True) = 1`), strings and `None`/other non-numeric data. -/
inductive PyVal : Type
  | vint (i : Int)
  | vbool (b : Bool)
  | vstr (s : String)
  | vnone
deriving DecidableEq

/-- Model of Python `int(v)`: `none` means `int(v)` raises. -/
def pyToInt : PyVal → Option Int
  | PyVal.vint i => some i
  | PyVal.vbool b => some (if b then 1 else 0)
  | PyVal.vstr s => pyStrToInt? s
  | PyVal.vnone => none

/-- First binding of `k` in an association list (Python `d.get(k)` /
`k in d`). -/
def alFind {κ α : Type} [DecidableEq κ] : List (κ × α) → κ → Option α
  | [], _ => none
  | (k', v) :: t, k => if k' = k then some v else alFind t k

/-- Python `d.get(k, dflt)`. -/
def alGetD {κ α : Type} [DecidableEq κ] (l : List (κ × α)) (k : κ) (dflt : α) : α :=
  (alFind l k).getD dflt

/-- Python `d[k] = v`: replace the value at an existing key in place,
otherwise append the new binding (insertion order is preserved). -/
def dictInsert {κ α : Type} [DecidableEq κ] : List (κ × α) → κ → α → List (κ × α)
  | [], k, v => [(k, v)]
  | (k', v') :: t, k, v =>
      if k' = k then (k', v) :: t else (k', v') :: dictInsert t k v

/-- Insert `x` into `l` before the first element strictly greater than it
(by `lt`), i.e. after every element it ties with — the placement a stable
sort gives to an element arriving later. -/
def insertBy {α : Type} (lt : α → α → Bool) (x : α) : List α → List α
  | [] => [x]
  | y :: ys => if lt y x then y :: insertBy lt x ys else x :: y :: ys

/-- Stable insertion sort by the strict comparison `lt`; models Python
`list.sort(key=...)`, which is stable. -/
def sortBy {α : Type} (lt : α → α → Bool) : List α → List α
  | [] => []
  | x :: xs => insertBy lt x (sortBy lt xs)

/-! ### `questions.py` — helper utilities (lines 48-110). -/

/-- `questions.clamp_driver` (questions.py lines 48-58): coerce an engagement
driver value into `{-1, 0, 1}`.  `int(v)` failing gives `0`; a numeric value
is clamped to the nearest bound (`iv < -1` gives `-1`, `iv > 1` gives `1`). -/
def clamp_driver (v : PyVal) : Int :=
  match pyToInt v with
  | none => 0
  | some iv => if iv < -1 then -1 else if iv > 1 then 1 else iv

/-- `questions.normalize_engagement_drivers` (lines 61-70): keep string keys
with non-blank names, upper-cased and stripped, values put through
`clamp_driver`; assignments go through dict semantics. -/
def normalize_engagement_drivers (drivers : List (String × PyVal)) : List (String × Int) :=
  drivers.foldl
    (fun out kv =>
      if sTrim kv.1 = "" then out
      else dictInsert out (sUpper (sTrim kv.1)) (clamp_driver kv.2))
    []

/-- The canonical persona keys of `questions.py` (line 31). -/
def PERSONAS : List String := ["listener", "motivator", "director", "expert"]

/-- Auto-fill texts of `questions.ensure_persona_responses` (lines 73-91). -/
def SAFE_DEFAULT_RESPONSE : String :=
  "I’m here with you. Share what matters most, and we’ll take one step at a time."

/-- Director auto-fill text (questions.py line 85). -/
def DIRECTOR_FILL : String :=
  "Here’s a simple next step: pick one small action you can do today, and track it for a week."

/-- Expert auto-fill text (questions.py line 87). -/
def EXPERT_FILL : String :=
  "Here’s the evidence-based view: consistent small improvements in sleep, activity, and risk factors reduce cardiovascular risk over time."

/-- `questions.ensure_persona_responses` (lines 73-91): every one of the four
personas gets a binding; a missing or blank text is replaced by the persona's
placeholder; the stored value is stripped. -/
def ensure_persona_responses (responses : List (String × String)) : List (String × String) :=
  PERSONAS.map (fun p =>
    let text := alGetD responses p ""
    let text := if sTrim text = "" then
        (if p = "director" then DIRECTOR_FILL
         else if p = "expert" then EXPERT_FILL
         else SAFE_DEFAULT_RESPONSE)
      else text
    (p, sTrim text))

/-- `questions.ensure_list` (lines 94-102), list-input case (the only shape
the pack data uses): keep the stripped non-blank entries. -/
def ensure_list (xs : List String) : List String :=
  xs.filterMap (fun i => if sTrim i = "" then none else some (sTrim i))

/-- Is a character kept by `slug_upper`? -/
def slugKeep (c : Char) : Bool := c.isAlphanum || c = '_' || c = '-'

/-- Is a character stripped from the edges by `slug_upper` (`strip("-_")`)? -/
def dashUnder (c : Char) : Bool := c = '-' || c = '_'

/-- `questions.slug_upper` (lines 105-106): upper-case, keep alphanumerics
plus `_`/`-`, strip `-`/`_` from both ends. -/
def slug_upper (s : String) : String :=
  let kept := (sUpper s).data.filter slugKeep
  String.mk (((kept.dropWhile dashUnder).reverse.dropWhile dashUnder).reverse)

/-- Python `f"{n:02d}"` for a natural number. -/
def pad2 (n : Nat) : String := if n < 10 then "0" ++ Nat.repr n else Nat.repr n

/-- `questions.build_id` (lines 109-110). -/
def build_id (pack_code : String) (idx : Nat) : String := pack_code ++ "-" ++ pad2 idx

/-! ### `questions.py` — the loader (`build_question_bank`, lines 2896-2945). -/

/-- A source citation dict (`{"publisher": ..., "title": ..., "url": ...}`
and the variants used by some packs); claims never look inside one, so it is
kept as a raw dict. -/
abbrev SourceDict := List (String × String)

/-- A raw pack question, with the fields `build_question_bank` reads.  Fields
a question omits take the same defaults `q.get(...)` supplies.  (One CAD-pack
question stores `behavioral_core` as a bare string, which the Python
comprehension would iterate character-wise; no claim depends on that entry
and the field is modelled in its list shape.) -/
structure RawQuestion where
  question : String := ""
  title : Option String := none
  keywords : List String := []
  responses : List (String × String) := []
  sig_behavioral_core : List String := []
  sig_condition_modifiers : List String := []
  sig_engagement_drivers : List (String × PyVal) := []
  security_rules : List String := []
  action_plans : List String := []
  sources : List SourceDict := []
deriving DecidableEq

/-- One entry of the `PACKS` dict after Python dict-literal evaluation (a
duplicated key keeps its first position and its last value, which is how the
repeated `"HTN"` key in `questions.PACKS` leaves only the AFib pack). -/
structure Pack where
  key : String
  category : Option String := none
  source_defaults : List SourceDict := []
  questions : List RawQuestion := []
deriving DecidableEq

/-- A normalized bank question: the dict `build_question_bank` stores under
`bank[qid]` (questions.py lines 2926-2941). -/
structure BankItem where
  id : String
  category : String
  title : String
  question : String
  keywords : List String
  responses : List (String × String)
  sig_behavioral_core : List String
  sig_condition_modifiers : List String
  sig_engagement_drivers : List (String × Int)
  security_rules : List String
  action_plans : List String
  sources : List SourceDict
deriving DecidableEq

/-- The `pack_code` computed at questions.py line 2900
(`slug_upper(pack_code_raw) or "PACK"`). -/
def packCode (p : Pack) : String :=
  let s := slug_upper p.key
  if s = "" then "PACK" else s

/-- The category string passed into the per-question normalization
(`pack.get("category", pack_code)`, line 2901). -/
def packCategoryRaw (p : Pack) : String := (p.category).getD (packCode p)

/-- The category stored on each item (line 2928):
`str(category).strip().upper() if str(category).strip() else pack_code`. -/
def normCategory (category pack_code : String) : String :=
  if sTrim category = "" then pack_code else sUpper (sTrim category)

/-- The normalization of one raw question into its bank item
(questions.py lines 2911-2941). -/
def mkBankItem (category pack_code : String) (source_defaults : List SourceDict)
    (qid : String) (q : RawQuestion) : BankItem :=
  let question_text := sTrim q.question
  let title0 := sTrim (q.title.getD question_text)
  { id := qid
    category := normCategory category pack_code
    title := if title0 = "" then question_text else title0
    question := question_text
    keywords := q.keywords.filterMap (fun x => if sTrim x = "" then none else some (sLower (sTrim x)))
    responses := ensure_persona_responses q.responses
    sig_behavioral_core :=
      q.sig_behavioral_core.filterMap (fun x => if sTrim x = "" then none else some (sUpper (sTrim x)))
    sig_condition_modifiers :=
      q.sig_condition_modifiers.filterMap (fun x => if sTrim x = "" then none else some (sUpper (sTrim x)))
    sig_engagement_drivers := normalize_engagement_drivers q.sig_engagement_drivers
    security_rules := ensure_list q.security_rules
    action_plans := ensure_list q.action_plans
    sources := if q.sources.isEmpty then source_defaults else q.sources }

/-- The inner loop of `build_question_bank`
(`for i, q in enumerate(questions, start=1): ... bank[qid] = item`). -/
def insertPackQuestions (category pack_code : String) (source_defaults : List SourceDict) :
    Nat → List RawQuestion → List (String × BankItem) → List (String × BankItem)
  | _, [], bank => bank
  | i, q :: qs, bank =>
      insertPackQuestions category pack_code source_defaults (i + 1) qs
        (dictInsert bank (build_id pack_code i)
          (mkBankItem category pack_code source_defaults (build_id pack_code i) q))

/-- `questions.build_question_bank` (lines 2896-2945): iterate the packs in
dict order and assign `id = build_id(pack_code, i)` with `i` enumerating the
pack's questions from 1. -/
def build_question_bank (packs : List Pack) : List (String × BankItem) :=
  packs.foldl
    (fun bank p =>
      insertPackQuestions (packCategoryRaw p) (packCode p) p.source_defaults 1 p.questions bank)
    []

/-! ### `questions.py` — `search_questions` (lines 151-188). -/

/-- One element of the list `search_questions` returns
(`{"id": ..., "category": ..., "question": ...}`). -/
structure SearchHit where
  id : String
  category : String
  question : String
deriving DecidableEq

/-- The haystack of `search_questions` (questions.py lines 168-177): title,
question text, keywords, behavioral-core codes, condition-modifier codes and
engagement-driver keys, joined with spaces and lower-cased.  Persona
responses are not part of it. -/
def searchHay (item : BankItem) : String :=
  sLower (String.intercalate " "
    [item.title, item.question,
     String.intercalate " " item.keywords,
     String.intercalate " " item.sig_behavioral_core,
     String.intercalate " " item.sig_condition_modifiers,
     String.intercalate " " (item.sig_engagement_drivers.map Prod.fst)])

/-- The per-question step of the search loop: `none` when the category filter
rejects the question or the query is not a substring of the haystack,
otherwise the `(score, qid, item)` triple that is collected. -/
def searchHit? (q : String) (cat : Option String) (kv : String × BankItem) :
    Option (Nat × String × BankItem) :=
  match cat with
  | some c =>
      if sUpper (sTrim kv.2.category) ≠ c then none
      else if 0 < countOccs q (searchHay kv.2) then
        some (countOccs q (searchHay kv.2), kv.1, kv.2)
      else none
  | none =>
      if 0 < countOccs q (searchHay kv.2) then
        some (countOccs q (searchHay kv.2), kv.1, kv.2)
      else none

/-- The sort key order of questions.py line 184,
`hits.sort(key=lambda t: (-t[0], t[1]))`: higher score first, ties by
question id ascending. -/
def hitLt (a b : Nat × String × BankItem) : Bool :=
  if b.1 < a.1 then true
  else if a.1 < b.1 then false
  else strLt a.2.1 b.2.1

/-- `questions.search_questions` (lines 151-188): substring match against
`searchHay`, scored by occurrence count, stably sorted by `(-score, qid)` and
truncated to `max 1 limit`. -/
def search_questions (bank : List (String × BankItem)) (query : String)
    (category : Option String) (limit : Int) : List SearchHit :=
  if sTrim query = "" then []
  else
    let q := sLower (sTrim query)
    let cat : Option String :=
      match category with
      | some c => if sTrim c = "" then none else some (sUpper (sTrim c))
      | none => none
    let hits := bank.filterMap (searchHit? q cat)
    let sorted := sortBy hitLt hits
    (sorted.take (max 1 limit).toNat).map (fun t => ⟨t.2.1, t.2.2.category, t.2.2.question⟩)

/-- The normalized query of `search_questions`
(`q = query.strip().lower()`, questions.py line 160). -/
def normQuery (query : String) : String := sLower (sTrim query)

/-- The normalized category filter of `search_questions`
(`cat = category.strip().upper() if category and category.strip() else None`,
questions.py line 161). -/
def normCatFilter (category : Option String) : Option String :=
  match category with
  | some c => if sTrim c = "" then none else some (sUpper (sTrim c))
  | none => none

/-- The hit list the search loop collects before sorting and truncation
(questions.py lines 163-182): one `(score, qid, item)` triple per bank
question that passes the category filter and contains the query. -/
def searchHits (bank : List (String × BankItem)) (query : String)
    (category : Option String) : List (Nat × String × BankItem) :=
  bank.filterMap (searchHit? (normQuery query) (normCatFilter category))

/-! ### `signatures_content.py` — the registry blocks (entire file). -/

/-- One registry block: the dict shape used by every entry of
`BEHAVIORAL_CORE_MESSAGES`, `CONDITION_MODIFIER_MESSAGES`,
`ENGAGEMENT_DRIVER_MESSAGES`, `SECURITY_RULES` and `ACTION_PLANS` in
`signatures_content.py` (keys `label`, `persona`, `default`, `message`,
`severity`, `hl_plain`; each optional). -/
structure Block where
  label : Option String := none
  personaMsgs : List (String × String) := []
  default : Option String := none
  message : Option String := none
  severity : Option String := none
  hl_plain : Option String := none
deriving DecidableEq

/-- Python truthiness of an optional string field. -/
def truthyStr : Option String → Bool
  | some s => s ≠ ""
  | none => false

namespace Content

/-- `signatures_content.BEHAVIORAL_CORE_MESSAGES` (lines 28-56). -/
def BEHAVIORAL_CORE_MESSAGES : List (String × Block) := [
  ("GEN",
    { label := some "General Support",
      default := some "Start with one small, safe step today and build gradually.",
      personaMsgs := [
        ("Listener", "It’s okay to start small. What feels doable right now?"),
        ("Motivator", "You’ve got this—small steps add up fast."),
        ("Director", "Pick one step, schedule it, and track it for 7 days."),
        ("Expert", "Gradual, consistent behavior change is associated with better long-term adherence.")] }),
  ("PA",
    { label := some "Physical Activity",
      default := some "Begin with low-to-moderate activity and increase gradually.",
      personaMsgs := [
        ("Listener", "What kind of movement do you actually enjoy?"),
        ("Motivator", "A little movement today is a win—let’s stack wins."),
        ("Director", "Start with 10 minutes/day, add 5 minutes each week as tolerated."),
        ("Expert", "Guidelines commonly target ~150 min/week moderate activity plus strength training.")],
      hl_plain := some "Start with short walks or light movement and build slowly." }),
  ("NUT",
    { label := some "Nutrition",
            default := some "Focus on a heart-healthy eating pattern you can sustain." }),
  ("MA",
    { label := some "Medication Adherence",
           default := some "Use routines and reminders to take medications safely and consistently." }),
  ("SY",
    { label := some "Monitoring & Symptoms",
           default := some "Track key numbers and symptoms to spot patterns early." }),
  ("PC",
    { label := some "Preventive Care",
           default := some "Build a plan with your care team and review progress regularly." }),
  ("HL",
    { label := some "Health Literacy",
           default := some "Let’s translate the medical stuff into clear, actionable steps." }),
  ("ST",
    { label := some "Stress/Sleep",
           default := some "Support your heart and brain by improving stress and sleep routines." })]

/-- `signatures_content.CONDITION_MODIFIER_MESSAGES` (lines 62-99). -/
def CONDITION_MODIFIER_MESSAGES : List (String × Block) := [
  ("CKM",
    { label := some "Cardio-Kidney-Metabolic Health",
            default := some "Because heart, kidney, and metabolic health are connected, we’ll focus on BP, glucose, weight, activity, and kidney protection together." }),
  ("HTN",
    { label := some "High Blood Pressure",
            default := some "Blood pressure control protects your heart, brain, and kidneys—home monitoring and lifestyle changes can make a big difference." }),
  ("CAD",
    { label := some "Coronary Artery Disease",
            default := some "With CAD, safe activity and risk-factor control (BP, cholesterol, glucose, tobacco) reduce future events—cardiac rehab can help." }),
  ("HF",
    { label := some "Heart Failure",
           default := some "With heart failure, daily weights and symptom tracking help detect fluid changes early—follow your care plan closely." }),
  ("AFIB",
    { label := some "Atrial Fibrillation",
             default := some "AFib can raise stroke risk. Rhythm/rate control plus stroke prevention planning are key parts of care." }),
  ("STROKE",
    { label := some "Stroke",
               default := some "After stroke, secondary prevention targets BP, cholesterol, diabetes, activity, and (when present) AFib management." }),
  ("DM",
    { label := some "Diabetes",
           default := some "Diabetes affects blood vessels and the heart; activity, food, meds, and monitoring work best together." }),
  ("CKD",
    { label := some "Kidney Disease",
            default := some "Kidney health can change diet and medication choices—coordinate dietary changes with your care team." }),
  ("CD",
    { label := some "Cardiac Disease (general)",
           default := some "Because you may have cardiac risk, we’ll emphasize safe progression and symptom-based stopping rules." })]

/-- `signatures_content.ENGAGEMENT_DRIVER_MESSAGES` (lines 105-127). -/
def ENGAGEMENT_DRIVER_MESSAGES : List (String × Block) := [
  ("PR",
    { label := some "Proactive framing",
      default := some "We’ll focus on the next best step you can take before problems escalate.",
      personaMsgs := [
        ("Listener", "What’s one small step you feel ready to try now?"),
        ("Motivator", "Let’s get ahead of this—small choices today protect your future."),
        ("Director", "Pick one measurable step and commit for 7 days."),
        ("Expert", "Upstream prevention reduces downstream complications and healthcare utilization.")] }),
  ("HL",
    { label := some "Health literacy shift",
      default := some "I’ll use plain language and a few key numbers so it’s easy to act on.",
      hl_plain := some "I’ll keep it simple and practical." }),
  ("SE",
    { label := some "Self-efficacy",
           default := some "We’ll build confidence by starting small and tracking wins." }),
  ("TR",
    { label := some "Trust",
           default := some "We’ll make decisions together and connect actions to clear reasons." }),
  ("GO",
    { label := some "Goal orientation",
           default := some "We’ll set a clear target and measure progress over time." }),
  ("ID",
    { label := some "Independence",
           default := some "We’ll build a plan you can run on your own, with support when needed." }),
  ("DS",
    { label := some "Decision style",
           default := some "We’ll match how you like to decide—options first or one clear recommendation." }),
  ("RC",
    { label := some "Readiness for change",
           default := some "We’ll choose a step that matches your readiness today." })]

/-- `signatures_content.SECURITY_RULES` (lines 133-194). -/
def SECURITY_RULES : List (String × Block) := [
  ("STOP_CHEST_PAIN_EXERCISE",
    { label := some "Chest pain stop rule",
      message := some "If you experience chest pain during exercise, stop immediately and contact your healthcare professional.",
      severity := some "high" }),
  ("CHEST_PAIN_EMERGENCY",
    { label := some "Emergency chest pain",
      message := some "If chest pain is severe, lasts >5 minutes, or comes with shortness of breath, sweating, or fainting, call emergency services.",
      severity := some "high" }),
  ("HTN_CRISIS",
    { label := some "Hypertensive crisis",
      message := some "If BP is around 180/120 or higher, especially with symptoms (chest pain, shortness of breath, weakness, vision changes), seek urgent care.",
      severity := some "high" }),
  ("HF_WEIGHT_GAIN_RED_FLAG",
    { label := some "Heart failure fluid red flag",
      message := some "Report rapid weight gain (e.g., ~2+ pounds overnight or ~5+ in a week) or worsening swelling/shortness of breath.",
      severity := some "high" }),
  ("MEDS_NO_STOP_WITHOUT_CLINICIAN",
    { label := some "Medication safety",
      message := some "Do not stop or change prescribed medications without talking to your clinician.",
      severity := some "medium" }),
  ("CKM_RED_FLAGS",
    { label := some "CKM red flags",
      message := some "Seek care if you have new or worsening shortness of breath, chest pain, fainting, sudden swelling, or rapid weight gain.",
      severity := some "high" }),
  ("HYPOGLYCEMIA_SAFETY",
    { label := some "Low blood sugar safety",
      message := some "If you feel shaky/sweaty/confused, check glucose if possible and treat low blood sugar promptly; seek help if severe.",
      severity := some "high" }),
  ("STROKE_SIGNS_EMERGENCY",
    { label := some "Stroke warning signs",
      message := some "If you notice face droop, arm weakness, speech difficulty, or sudden severe symptoms, call emergency services immediately.",
      severity := some "high" }),
  ("DIZZY_FAINTING_SAFETY",
    { label := some "Dizziness/fainting",
      message := some "If you are dizzy or fainting, sit/lie down and contact your clinician—especially if it happens repeatedly or after medication changes.",
      severity := some "medium" }),
  ("CKD_DIET_CAUTION",
    { label := some "Kidney diet caution",
      message := some "If you have kidney disease, discuss major diet changes (potassium, phosphorus, protein) with your care team.",
      severity := some "medium" }),
  ("CARE_GAPS_AVOID",
    { label := some "Avoid care gaps",
      message := some "If symptoms worsen or you’re unsure about your plan, contact your care team rather than waiting it out.",
      severity := some "medium" }),
  ("RAPID_KIDNEY_DECLINE",
    { label := some "Kidney decline",
      message := some "If labs show a rapid drop in kidney function or you develop severe swelling or shortness of breath, seek prompt evaluation.",
      severity := some "high" })]

/-- `signatures_content.ACTION_PLANS` (lines 200-235). -/
def ACTION_PLANS : List (String × Block) := [
  ("CARDIAC_REHAB_REFERRAL",
    { label := some "Cardiac Rehabilitation",
      message := some "Ask about enrolling in a cardiac rehabilitation program for supervised, personalized exercise and education." }),
  ("CKM_MONITORING",
    { label := some "CKM monitoring",
      message := some "Plan regular check-ins for BP, labs (kidney function, A1c), and symptoms." }),
  ("PREVENT_REVIEW",
    { label := some "PREVENT",
      message := some "Review your PREVENT risk score at least yearly or when risk factors change." }),
  ("MLE8_BASELINE",
    { label := some "MyLifeCheck baseline",
      message := some "Get a baseline Life’s Essential 8 / MyLifeCheck score and choose one domain to improve." }),
  ("MLE8_TREND",
    { label := some "MyLifeCheck trend",
      message := some "Track your Life’s Essential 8 score over time to see which habits are improving." }),
  ("SMBP",
    { label := some "Home BP monitoring",
      message := some "Use home BP monitoring with good technique; share readings with your care team." }),
  ("DASH",
    { label := some "DASH plan",
      message := some "Use a DASH-style eating pattern; reduce sodium and prioritize fruits/vegetables/whole grains." }),
  ("MEDITERRANEAN",
    { label := some "Mediterranean plan",
      message := some "Use a Mediterranean-style pattern emphasizing plants, healthy fats, fish, and whole foods." }),
  ("GOAL_SETTING",
    { label := some "Goal setting",
      message := some "Write your health goal where you’ll see it daily and track progress weekly." }),
  ("FOLLOW_UP_PLAN",
    { label := some "Follow-up plan",
      message := some "Set a follow-up schedule and know what symptoms should trigger earlier contact." }),
  ("WEIGHT_LOG",
    { label := some "Daily weights",
      message := some "Weigh yourself daily (if advised) and record results to detect fluid changes." }),
  ("HOME_BP",
    { label := some "Home BP",
      message := some "Measure BP at consistent times and bring your log to visits." }),
  ("SODIUM_TRACK",
    { label := some "Sodium awareness",
      message := some "Track sodium intake for 3 days to identify your biggest sources." }),
  ("PA_150",
    { label := some "Activity target",
      message := some "Aim for gradual progression toward ~150 minutes/week moderate activity if safe for you." }),
  ("BREATHING_5MIN",
    { label := some "Breathing practice",
      message := some "Try 5 minutes of slow breathing daily as a quick stress reset." }),
  ("SLEEP_ROUTINE",
    { label := some "Sleep routine",
      message := some "Create a consistent wind-down routine; sleep supports BP and glucose control." }),
  ("EMERGENCY_PLAN",
    { label := some "Emergency plan",
      message := some "Save urgent numbers and know when to seek emergency care." }),
  ("SYMPTOM_LOG",
    { label := some "Symptom log",
      message := some "Track symptoms with timing, triggers, and severity so your team can adjust care." }),
  ("MED_TIMING_REVIEW",
    { label := some "Medication timing",
      message := some "Log medication timing and symptoms to review possible dose/timing adjustments." }),
  ("FAMILY_PLAN",
    { label := some "Family support",
      message := some "Share one simple goal with a family member and invite them to support you." }),
  ("REMOTE_MONITORING",
    { label := some "Remote monitoring",
      message := some "Ask about telehealth/remote monitoring programs to catch changes early." }),
  ("CARE_APP",
    { label := some "Care app",
      message := some "Ask if your clinic offers an app for reminders, messaging, and tracking." }),
  ("COORDINATED_CARE",
    { label := some "Coordinated care",
      message := some "Ask for coordinated heart-kidney-metabolic care if multiple conditions are present." }),
  ("MED_REVIEW",
    { label := some "Medication review",
      message := some "Ask your clinician to review medication benefits, side effects, and alternatives." }),
  ("MED_RECONCILIATION",
    { label := some "Medication reconciliation",
      message := some "Bring all meds/supplements so your team can reduce duplication and interactions." }),
  ("BRING_CUFF_VISIT",
    { label := some "Cuff accuracy",
      message := some "Bring your home BP cuff to your visit to verify accuracy and technique." }),
  ("TECHNIQUE_CHECK",
    { label := some "Technique",
      message := some "Use proper BP technique: seated, rested, arm supported at heart level, no caffeine right before." }),
  ("CALL_TEAM_PLAN",
    { label := some "Call plan",
      message := some "Make a ‘when to call’ plan with your care team for symptoms and rapid changes." }),
  ("SECONDARY_PREVENTION_CHECKLIST",
    { label := some "Secondary prevention",
      message := some "Build a checklist for BP, cholesterol, diabetes, activity, and medication adherence." }),
  ("CHADS_VASC_CALC",
    { label := some "CHA2DS2-VASc",
      message := some "Ask your clinician about your CHA₂DS₂-VASc score to guide stroke prevention decisions." }),
  ("FAST_CARBS_PLAN",
    { label := some "Fast carbs plan",
      message := some "Carry fast-acting carbs when active if you’re at risk for low blood sugar." })]

end Content

/-! ### `signatures_rules.py` — registry resolution and payload assembly. -/

/-- `signatures_rules._pick_message` (lines 34-42): persona-specific message
first, then a truthy `default`, then a truthy `message`, else the empty
string; every result is stripped. -/
def pick_message (block : Block) (persona : String) : String :=
  match alFind block.personaMsgs persona with
  | some m => sTrim m
  | none =>
      if truthyStr block.default then sTrim (block.default.getD "")
      else if truthyStr block.message then sTrim (block.message.getD "")
      else ""

/-- A resolved `{code, label, message}` entry of the output payload. -/
structure Entry where
  code : String
  label : String
  message : String
deriving DecidableEq

/-- A resolved security-rule entry (adds `severity`). -/
structure SecEntry where
  code : String
  label : String
  message : String
  severity : String
deriving DecidableEq

/-- Resolution step shared by the behavioral-core, condition-modifier and
engagement-driver loops of `build_signatures_output` (lines 84-109):
`block = REGISTRY.get(code, {"label": code, "default": ""})`, then label and
`_pick_message`. -/
def mkRegistryEntry (reg : List (String × Block)) (code persona : String) : Entry :=
  let block := (alFind reg code).getD { label := some code, default := some "" }
  { code := code, label := block.label.getD code, message := pick_message block persona }

/-- The security-rule loop body of `build_signatures_output` (lines 112-120):
default block `{"label": code, "message": ""}` and
`severity = block.get("severity", "unknown")`. -/
def mkSecurityEntry (code persona : String) : SecEntry :=
  let block := (alFind Content.SECURITY_RULES code).getD { label := some code, message := some "" }
  { code := code, label := block.label.getD code, message := pick_message block persona,
    severity := block.severity.getD "unknown" }

/-- The action-plan loop body of `build_signatures_output` (lines 122-130). -/
def mkPlanEntry (code persona : String) : Entry :=
  let block := (alFind Content.ACTION_PLANS code).getD { label := some code, message := some "" }
  { code := code, label := block.label.getD code, message := pick_message block persona }

/-- The `signatures_tags` dict read at signatures_rules.py lines 75-78.  The
bank data stores `engagement_drivers` as a dict from driver code to tri-state
value; `for code in drv_codes` iterates that dict's keys in insertion order,
ignoring the values. -/
structure SigTags where
  behavioral_core : List String := []
  condition_modifiers : List String := []
  engagement_drivers : List (String × Int) := []
deriving DecidableEq

/-- The attribute-style question record the body of `build_signatures_output`
reads (`question.signatures_tags`, `.security_rule_codes`,
`.action_plan_codes`, `.responses`, `.id`, `.category`, `.question`,
`.action_step`, `.why`, `.sources`).  `responses` maps a persona name
directly to a string (the code calls `.strip()` on the value). -/
structure RQuestion where
  id : String := ""
  category : String := ""
  question : String := ""
  action_step : String := ""
  why : String := ""
  signatures_tags : SigTags := {}
  security_rule_codes : List String := []
  action_plan_codes : List String := []
  responses : List (String × String) := []
  sources : List SourceDict := []
deriving DecidableEq

/-- The output dict of `build_signatures_output` (lines 141-169), with its
nested `question`/`response`/`signatures` blocks flattened into fields.  The
`scores` and `calculator` fields — pure projections of the optional
calculator-results argument that no claim mentions — are omitted. -/
structure RulesOutput where
  persona : String
  question_id : String
  question_category : String
  question_text : String
  response_message : String
  response_action_step : String
  response_why : String
  behavioral_core : List Entry
  condition_modifiers : List Entry
  engagement_drivers : List Entry
  security_rules : List SecEntry
  action_plans : List Entry
  sources : List SourceDict
deriving DecidableEq

/-- The literal final fallback of signatures_rules.py line 135. -/
def FALLBACK_RESPONSE : String := "Start with one small step today and build gradually."

/-- `signatures_rules.build_signatures_output` (lines 69-170) over the
attribute-shaped question record its body expects.  The calculator
inputs/results parameters only feed the omitted `scores`/`calculator`
output fields and are dropped here. -/
def build_signatures_output (question : RQuestion) (persona : String) : RulesOutput :=
  let tags := question.signatures_tags
  let core_codes := if tags.behavioral_core.isEmpty then ["GEN"] else tags.behavioral_core
  let behavioral_core := core_codes.map (fun c => mkRegistryEntry Content.BEHAVIORAL_CORE_MESSAGES c persona)
  let condition_modifiers := tags.condition_modifiers.map (fun c => mkRegistryEntry Content.CONDITION_MODIFIER_MESSAGES c persona)
  let engagement_drivers := (tags.engagement_drivers.map Prod.fst).map (fun c => mkRegistryEntry Content.ENGAGEMENT_DRIVER_MESSAGES c persona)
  let security_rules := question.security_rule_codes.map (fun c => mkSecurityEntry c persona)
  let action_plans := question.action_plan_codes.map (fun c => mkPlanEntry c persona)
  let persona_response := sTrim (alGetD question.responses persona "")
  let persona_response := if persona_response = "" then
      (let m := ((behavioral_core.head?).getD { code := "", label := "", message := "" }).message
       if m = "" then FALLBACK_RESPONSE else m)
    else persona_response
  { persona := persona
    question_id := question.id
    question_category := question.category
    question_text := question.question
    response_message := persona_response
    response_action_step := question.action_step
    response_why := question.why
    behavioral_core := behavioral_core
    condition_modifiers := condition_modifiers
    engagement_drivers := engagement_drivers
    security_rules := security_rules
    action_plans := action_plans
    sources := question.sources }

/-- Python attribute lookup of a data attribute on a bank question.
`questions.py` line 40 defines `Question = Dict[str, Any]` and
`build_question_bank` stores plain dict literals, so a bank question is a
`dict`; a `dict` exposes its content through subscripting and `.get`, and has
no data attribute at all, so the type of successful lookups is empty. -/
def bankQuestionAttr (_q : BankItem) (_name : String) : Option Empty := none

/-- `signatures_rules.build_signatures_output` applied to a question that
comes from `questions.build_question_bank`: the very first statement of the
body (line 75) evaluates the attribute access `question.signatures_tags`,
which on a dict raises `AttributeError`. -/
def build_signatures_output_on_bank_question (q : BankItem) (_persona : String) :
    Except String RulesOutput :=
  match bankQuestionAttr q "signatures_tags" with
  | some e => e.elim
  | none => Except.error "AttributeError: dict object has no attribute signatures_tags"

/-! ### `signatures_engine.py` — input normalization, security rules and
content links of the message-assembly layer. -/

namespace Engine

/-- `signatures_engine.SignaturesInput` (lines 62-68). -/
structure SignaturesInput where
  question : String
  persona : String
  behavioral_core : String
  condition_modifiers : List (String × Int) := []
  engagement_drivers : List (String × Int) := []
deriving DecidableEq

/-- One step of the engagement-driver loop of `normalize_codes`
(signatures_engine.py lines 76-79): a value outside `{-1, 0, 1}` raises
`ValueError`; a raise short-circuits the rest of the loop. -/
def driverStep (acc : Except String (List (String × Int))) (dv : String × Int) :
    Except String (List (String × Int)) :=
  match acc with
  | Except.error e => Except.error e
  | Except.ok cs =>
      if dv.2 = -1 ∨ dv.2 = 0 ∨ dv.2 = 1 then Except.ok (dictInsert cs dv.1 dv.2)
      else Except.error ("Driver " ++ dv.1 ++ " must be -1, 0, or 1; got " ++ toString dv.2)

/-- `signatures_engine.normalize_codes` (lines 71-80): the behavioral core is
set to 1, condition modifiers to 1 or 0, and every engagement-driver value
outside `{-1, 0, 1}` raises `ValueError`. -/
def normalize_codes (si : SignaturesInput) : Except String (List (String × Int)) :=
  let codes := dictInsert ([] : List (String × Int)) si.behavioral_core 1
  let codes := si.condition_modifiers.foldl
    (fun cs cv => dictInsert cs cv.1 (if cv.2 = 1 then 1 else 0)) codes
  si.engagement_drivers.foldl driverStep (Except.ok codes)

/-- Generic physical-activity security rule
(`signatures_engine.SECURITY_RULES[("PA", None)]`, line 807). -/
def SEC_PA_GENERIC : String :=
  "SECURITY: If you feel faint, severely short of breath, or unwell during exercise, stop and seek medical guidance."

/-- Condition-specific physical-activity rule
(`signatures_engine.SECURITY_RULES[("PA", "CD")]`, line 808). -/
def SEC_PA_CD : String :=
  "SECURITY: If you experience chest pain, pressure, or tightness during exercise, stop immediately and contact your healthcare professional."

/-- Generic blood-pressure rule
(`signatures_engine.SECURITY_RULES[("BP", None)]`, line 809). -/
def SEC_BP_GENERIC : String :=
  "SECURITY: If your BP is 180/120 or higher with symptoms (chest pain, shortness of breath, weakness, vision/speech changes), seek emergency care."

/-- `signatures_engine.SECURITY_RULES` (lines 806-810), keyed by
`(behavior, condition-or-None)`. -/
def SECURITY_RULES : List ((String × Option String) × String) := [
  (("PA", none), SEC_PA_GENERIC),
  (("PA", some "CD"), SEC_PA_CD),
  (("BP", none), SEC_BP_GENERIC)]

/-- The security-rule portion of `signatures_engine.assemble_messages`
(lines 961-972): append the condition-specific rule of every active
condition, and only when none matched fall back to the behavior-only generic
rule.  `payload.security_rules` is empty when `assemble_messages` runs (the
payload is freshly constructed in `build_payload`), so the function's effect
on it is this list. -/
def assembleSecurityRules (b : String) (active_conditions : List String) : List String :=
  let specific := active_conditions.filterMap (fun c => alFind SECURITY_RULES (b, some c))
  if specific.isEmpty then
    match alFind SECURITY_RULES (b, none) with
    | some r => [r]
    | none => []
  else specific

/-- A content link (the dicts of `signatures_engine.AHA_LINKS`,
lines 125-136). -/
structure Link where
  org : String
  title : String
  url : String
deriving DecidableEq

/-- `AHA_LINKS["CKM"]`. -/
def ahaCKM : Link :=
  { org := "American Heart Association",
    title := "Cardiovascular–Kidney–Metabolic (CKM) Health",
    url := "https://www.heart.org/en/professional/quality-improvement/cardio-kidney-metabolic-health" }

/-- `AHA_LINKS["BP"]`. -/
def ahaBP : Link :=
  { org := "American Heart Association",
    title := "High Blood Pressure (Hypertension)",
    url := "https://www.heart.org/en/health-topics/high-blood-pressure" }

/-- `AHA_LINKS["HF"]`. -/
def ahaHF : Link :=
  { org := "American Heart Association", title := "Heart Failure",
    url := "https://www.heart.org/en/health-topics/heart-failure" }

/-- `AHA_LINKS["CAD"]`. -/
def ahaCAD : Link :=
  { org := "American Heart Association", title := "Coronary Artery Disease",
    url := "https://www.heart.org/en/health-topics/heart-attack/about-heart-attacks" }

/-- `AHA_LINKS["AF"]`. -/
def ahaAF : Link :=
  { org := "American Heart Association", title := "Atrial Fibrillation (AFib)",
    url := "https://www.heart.org/en/health-topics/atrial-fibrillation" }

/-- `AHA_LINKS["ST"]`. -/
def ahaST : Link :=
  { org := "American Heart Association", title := "Stroke",
    url := "https://www.heart.org/en/health-topics/stroke" }

/-- `AHA_LINKS["DM"]`. -/
def ahaDM : Link :=
  { org := "American Heart Association", title := "Diabetes",
    url := "https://www.heart.org/en/health-topics/diabetes" }

/-- `AHA_LINKS["MYLIFECHECK"]`. -/
def ahaMYLIFECHECK : Link :=
  { org := "American Heart Association",
    title := "My Life Check (Life’s Essential 8)",
    url := "https://www.heart.org/en/healthy-living/healthy-lifestyle/my-life-check" }

/-- `AHA_LINKS["FITNESS"]`. -/
def ahaFITNESS : Link :=
  { org := "American Heart Association", title := "Fitness and Physical Activity",
    url := "https://www.heart.org/en/healthy-living/fitness" }

/-- `AHA_LINKS["DASH"]`. -/
def ahaDASH : Link :=
  { org := "American Heart Association", title := "DASH Eating Plan",
    url := "https://www.heart.org/en/healthy-living/healthy-eating/eat-smart/nutrition-basics/dash-diet" }

/-- The four persona keys every `PreloadedQuestion` of the engine's
`QUESTION_BANK` defines in its `answers` dict (verified against each
`_add(...)` call, lines 145-747 of `signatures_engine.py`). -/
def fourPersonas : List String := ["Listener", "Motivator", "Director", "Expert"]

/-- A preloaded engine question, with the fields `assemble_messages` consults
for its `content_links` effect: `question`/`category`/`behavioral_core`/
`default_conditions` identify the entry, `answerPersonas` are the keys of the
`answers` dict, and `links` is the `links=` field.  The `PersonaAnswer` texts
(read only for the `persona_output` block) are omitted. -/
structure PreQ where
  qid : String
  category : String
  question : String
  behavioral_core : String
  default_conditions : List String
  answerPersonas : List String
  links : List Link
deriving DecidableEq

/-- The engine's `QUESTION_BANK` (lines 138-747) as the ordered list of its
`_add(...)` calls: qid, category, question, behavioral core, default
conditions and links of each `PreloadedQuestion`. -/
def questionBank : List PreQ := [
  { qid := "CKM-01", category := "CKM",
    question := "What does my diagnosis mean for my future?",
    behavioral_core := "PC", default_conditions := ["CKM"],
    answerPersonas := fourPersonas, links := [ahaCKM, ahaMYLIFECHECK] },
  { qid := "CKM-02", category := "CKM",
    question := "What can I eat—and what should I avoid?",
    behavioral_core := "NUT", default_conditions := ["CKM"],
    answerPersonas := fourPersonas, links := [ahaDASH, ahaCKM] },
  { qid := "CKM-03", category := "CKM",
    question := "Why am I on so many medications?",
    behavioral_core := "MA", default_conditions := ["CKM"],
    answerPersonas := fourPersonas, links := [ahaCKM] },
  { qid := "CKM-04", category := "CKM",
    question := "How do I know if my condition is getting better or worse?",
    behavioral_core := "SY", default_conditions := ["CKM"],
    answerPersonas := fourPersonas, links := [ahaMYLIFECHECK, ahaCKM] },
  { qid := "CKM-05", category := "CKM",
    question := "Will I need dialysis or heart surgery?",
    behavioral_core := "PC", default_conditions := ["CKM"],
    answerPersonas := fourPersonas, links := [ahaCKM] },
  { qid := "CKM-06", category := "CKM",
    question := "Can I still exercise?",
    behavioral_core := "PA", default_conditions := ["CKM"],
    answerPersonas := fourPersonas, links := [ahaFITNESS, ahaCKM] },
  { qid := "CKM-07", category := "CKM",
    question := "What’s a healthy blood pressure for me?",
    behavioral_core := "BP", default_conditions := ["CKM"],
    answerPersonas := fourPersonas, links := [ahaBP, ahaCKM] },
  { qid := "CKM-08", category := "CKM",
    question := "How can I manage this and still live my life?",
    behavioral_core := "PC", default_conditions := ["CKM"],
    answerPersonas := fourPersonas, links := [ahaCKM] },
  { qid := "CKM-09", category := "CKM",
    question := "Are my heart, kidneys, and diabetes connected?",
    behavioral_core := "HL", default_conditions := ["CKM"],
    answerPersonas := fourPersonas, links := [ahaCKM] },
  { qid := "CKM-10", category := "CKM",
    question := "How do I avoid going back to the hospital?",
    behavioral_core := "PC", default_conditions := ["CKM"],
    answerPersonas := fourPersonas, links := [ahaCKM] },
  { qid := "HBP-01", category := "HighBP",
    question := "What should my blood pressure goal be?",
    behavioral_core := "BP", default_conditions := ["HT"],
    answerPersonas := fourPersonas, links := [ahaBP] },
  { qid := "HBP-02", category := "HighBP",
    question := "Do I really need medication?",
    behavioral_core := "MA", default_conditions := ["HT"],
    answerPersonas := fourPersonas, links := [ahaBP] },
  { qid := "HBP-03", category := "HighBP",
    question := "What can I do besides taking medication?",
    behavioral_core := "PC", default_conditions := ["HT"],
    answerPersonas := fourPersonas, links := [ahaMYLIFECHECK, ahaBP] },
  { qid := "HBP-04", category := "HighBP",
    question := "What kind of diet should I follow?",
    behavioral_core := "NUT", default_conditions := ["HT"],
    answerPersonas := fourPersonas, links := [ahaDASH, ahaBP] },
  { qid := "HBP-05", category := "HighBP",
    question := "Will I have high blood pressure forever?",
    behavioral_core := "PC", default_conditions := ["HT"],
    answerPersonas := fourPersonas, links := [ahaBP] },
  { qid := "HBP-06", category := "HighBP",
    question := "How can I track my blood pressure at home?",
    behavioral_core := "BP", default_conditions := ["HT"],
    answerPersonas := fourPersonas, links := [ahaBP] },
  { qid := "HBP-07", category := "HighBP",
    question := "Can stress really affect my blood pressure?",
    behavioral_core := "SM", default_conditions := ["HT"],
    answerPersonas := fourPersonas, links := [ahaBP] },
  { qid := "HBP-08", category := "HighBP",
    question := "What’s a dangerous blood pressure level?",
    behavioral_core := "BP", default_conditions := ["HT"],
    answerPersonas := fourPersonas, links := [ahaBP] },
  { qid := "HBP-09", category := "HighBP",
    question := "Is low blood pressure a problem too?",
    behavioral_core := "BP", default_conditions := ["HT"],
    answerPersonas := fourPersonas, links := [ahaBP] },
  { qid := "HBP-10", category := "HighBP",
    question := "How do I talk to my family about my high blood pressure?",
    behavioral_core := "PC", default_conditions := ["HT"],
    answerPersonas := fourPersonas, links := [ahaBP] }]

/-- The `content_links` a payload holds after `assemble_messages`
(signatures_engine.py lines 936-976): the payload starts with an empty list
(`build_payload` constructs it fresh); the preloaded question's links are
appended only when a question was preloaded and the persona has an answer
(lines 946-959); finally the `AHA_LINKS["MYLIFECHECK"]` link is appended
whenever it is not already present (lines 974-976). -/
def assembleContentLinks (preloaded : Option PreQ) (persona : String) : List Link :=
  let base : List Link :=
    match preloaded with
    | some q => if persona ∈ q.answerPersonas then q.links else []
    | none => []
  if ahaMYLIFECHECK ∈ base then base else base ++ [ahaMYLIFECHECK]

end Engine

/-! ### Concrete instances used to exercise the definitions. -/

/-- A question whose driver map holds one present, one known-absent and one
unknown driver — the tags of the spec's scenario
`engagement_drivers={"PR": 1, "HL": -1, "GO": 0}`. -/
def demoDriverQ : RQuestion :=
  { signatures_tags := { engagement_drivers := [("PR", 1), ("HL", -1), ("GO", 0)] } }

/-- A question with two behavioral-core codes — the tag set of the REHAB-01
pack question (`questions.py` lines 550-554, `behavioral_core = ["PA", "PC"]`). -/
def demoTwoCoreQ : RQuestion :=
  { signatures_tags :=
      { behavioral_core := ["PA", "PC"],
        condition_modifiers := ["CAD", "HF", "POST_MI", "POST_PCI", "POST_CABG"],
        engagement_drivers := [("HL", 1), ("TR", 0), ("SE", 0)] } }

/-- A question whose behavioral core is not in the registry and that has no
persona responses. -/
def demoUnknownCoreQ : RQuestion := { signatures_tags := { behavioral_core := ["XXQ"] } }

/-- A question whose persona response carries surrounding whitespace. -/
def demoPaddedQ : RQuestion := { responses := [("Listener", "  Rest well.  ")] }

/-- A `SignaturesInput` with an engagement-driver value outside `{-1, 0, 1}`. -/
def demoInvalidSI : Engine.SignaturesInput :=
  { question := "Can I still exercise?", persona := "Listener", behavioral_core := "PA",
    condition_modifiers := [("CKM", 1)], engagement_drivers := [("SE", 5)] }

/-- A one-pack input for the loader. -/
def demoPacks : List Pack :=
  [{ key := "CKM", category := some "CKM",
     questions := [{ question := "A?" }, { question := "B?" }] }]

/-- A raw question whose listener response mentions blood pressure while its
text, keywords and codes do not. -/
def demoSearchRaw : RawQuestion :=
  { question := "Do I need meds?", keywords := ["medication"],
    responses := [("listener", "Track your blood pressure at home.")],
    sig_behavioral_core := ["MA"], sig_condition_modifiers := ["HTN"],
    sig_engagement_drivers := [("PR", PyVal.vint 1)] }

/-- The normalized bank item of `demoSearchRaw`. -/
def demoSearchItem : BankItem := mkBankItem "HT" "HT" [] "HT-01" demoSearchRaw

/-- A one-question bank for the search claims. -/
def demoSearchBank : List (String × BankItem) := [("HT-01", demoSearchItem)]

/-! ## Theorems -/

/-- The `code` field of a resolved entry is the code that was looked up. -/
theorem mkRegistryEntry_code (reg : List (String × Block)) (code persona : String) :
    (mkRegistryEntry reg code persona).code = code := rfl

/-- Lookup in an empty association list fails. -/
theorem alFind_nil {κ α : Type} [DecidableEq κ] (k : κ) :
    alFind ([] : List (κ × α)) k = none := rfl

/-- Mapping resolution over a code list and projecting the codes back is the
identity. -/
theorem map_code_mkRegistryEntry (reg : List (String × Block)) (persona : String)
    (l : List String) :
    (l.map (fun c => mkRegistryEntry reg c persona)).map Entry.code = l := by
  induction l with
  | nil => rfl
  | cons c t ih => simpa [mkRegistryEntry_code] using ih

/-- C2 (amended): `build_signatures_output` emits one engagement-driver entry
per key of the question's driver map, in insertion order, regardless of the
key's tri-state value — values `0` and `-1` are not filtered out. -/
theorem engagement_driver_entries_amended (q : RQuestion) (persona : String) :
    (build_signatures_output q persona).engagement_drivers.map Entry.code
      = q.signatures_tags.engagement_drivers.map Prod.fst := by
  simp [build_signatures_output, List.map_map, Function.comp, mkRegistryEntry]

/-- C2 counterexample: on the spec's own scenario
`engagement_drivers={"PR": 1, "HL": -1, "GO": 0}` the entry list contains
`HL` (value `-1`) and `GO` (value `0`), refuting the claim that only `+1`
drivers appear. -/
theorem engagement_driver_entries_cex :
    alFind demoDriverQ.signatures_tags.engagement_drivers "HL" = some (-1) ∧
    alFind demoDriverQ.signatures_tags.engagement_drivers "GO" = some 0 ∧
    (build_signatures_output demoDriverQ "Listener").engagement_drivers.map Entry.code
      = ["PR", "HL", "GO"] := by
  refine ⟨by decide, by decide, ?_⟩
  decide

/-- C8 (amended): `behavioral_core_entries` holds one entry per code in the
question's `behavioral_core` list (`["GEN"]` is substituted when the list is
empty), so it is a singleton exactly when the question carries at most one
core code. -/
theorem behavioral_core_entries_amended (q : RQuestion) (persona : String) :
    (build_signatures_output q persona).behavioral_core.map Entry.code
      = (if q.signatures_tags.behavioral_core.isEmpty then ["GEN"]
         else q.signatures_tags.behavioral_core) ∧
    ((build_signatures_output q persona).behavioral_core.length = 1
      ↔ q.signatures_tags.behavioral_core.length ≤ 1) := by
  constructor
  · simp only [build_signatures_output]
    exact map_code_mkRegistryEntry _ _ _
  · simp only [build_signatures_output, List.length_map]
    cases h : q.signatures_tags.behavioral_core with
    | nil => simp
    | cons c t => simp [List.isEmpty]

/-- C8 counterexample: a question tagged like pack question REHAB-01
(`behavioral_core = ["PA", "PC"]`) gets two behavioral-core entries, not
always exactly one. -/
theorem behavioral_core_entries_cex :
    (build_signatures_output demoTwoCoreQ "Expert").behavioral_core.length = 2 := by
  decide

/-- C4 (amended): the primary response is the question's persona response
with surrounding whitespace stripped when that is non-blank; otherwise it is
the registry message resolved for the first effective behavioral-core code,
or — when that message is empty — the fixed fallback string; in all cases it
is non-empty. -/
theorem primary_response_amended (q : RQuestion) (persona : String) :
    ((build_signatures_output q persona).response_message =
      (let r := sTrim (alGetD q.responses persona "")
       if r = "" then
         (let m := (mkRegistryEntry Content.BEHAVIORAL_CORE_MESSAGES
             ((if q.signatures_tags.behavioral_core.isEmpty then ["GEN"]
               else q.signatures_tags.behavioral_core).headD "GEN") persona).message
          if m = "" then FALLBACK_RESPONSE else m)
       else r)) ∧
    (build_signatures_output q persona).response_message ≠ "" := by
  have hmain : (build_signatures_output q persona).response_message =
      (let r := sTrim (alGetD q.responses persona "")
       if r = "" then
         (let m := (mkRegistryEntry Content.BEHAVIORAL_CORE_MESSAGES
             ((if q.signatures_tags.behavioral_core.isEmpty then ["GEN"]
               else q.signatures_tags.behavioral_core).headD "GEN") persona).message
          if m = "" then FALLBACK_RESPONSE else m)
       else r) := by
    cases h : q.signatures_tags.behavioral_core with
    | nil => simp [build_signatures_output, h]
    | cons c t => simp [build_signatures_output, h]
  refine ⟨hmain, ?_⟩
  rw [hmain]
  simp only []
  split_ifs <;> first | assumption | decide

/-- C4 counterexample: two concrete violations of the claim as stated.  For
a question whose behavioral core has no registry entry and that has no
persona response, the primary response is the fixed fallback string, not the
registry's resolved message (which is empty).  For a question whose persona
response carries surrounding whitespace, the primary response is the stripped
text, not the response verbatim. -/
theorem primary_response_cex :
    (alFind Content.BEHAVIORAL_CORE_MESSAGES "XXQ" = none ∧
      pick_message ((alFind Content.BEHAVIORAL_CORE_MESSAGES "XXQ").getD
        { label := some "XXQ", default := some "" }) "Listener" = "" ∧
      (build_signatures_output demoUnknownCoreQ "Listener").response_message
        = FALLBACK_RESPONSE ∧
      FALLBACK_RESPONSE ≠ "") ∧
    (alGetD demoPaddedQ.responses "Listener" "" = "  Rest well.  " ∧
      (build_signatures_output demoPaddedQ "Listener").response_message = "Rest well.") := by
  refine ⟨⟨by decide, by decide, by decide, by decide⟩, by decide, ?_⟩
  decide

/-- C5: a code present in no registry resolves, for every persona, to an
entry whose label is the bare code and whose message is the empty string (a
security entry additionally gets severity `"unknown"`); resolution is a total
function and cannot raise. -/
theorem unknown_code_resolution (code persona : String)
    (h1 : alFind Content.BEHAVIORAL_CORE_MESSAGES code = none)
    (h2 : alFind Content.CONDITION_MODIFIER_MESSAGES code = none)
    (h3 : alFind Content.ENGAGEMENT_DRIVER_MESSAGES code = none)
    (h4 : alFind Content.SECURITY_RULES code = none)
    (h5 : alFind Content.ACTION_PLANS code = none) :
    mkRegistryEntry Content.BEHAVIORAL_CORE_MESSAGES code persona = ⟨code, code, ""⟩ ∧
    mkRegistryEntry Content.CONDITION_MODIFIER_MESSAGES code persona = ⟨code, code, ""⟩ ∧
    mkRegistryEntry Content.ENGAGEMENT_DRIVER_MESSAGES code persona = ⟨code, code, ""⟩ ∧
    mkSecurityEntry code persona = ⟨code, code, "", "unknown"⟩ ∧
    mkPlanEntry code persona = ⟨code, code, ""⟩ := by
  refine ⟨?_, ?_, ?_, ?_, ?_⟩ <;>
    simp [mkRegistryEntry, mkSecurityEntry, mkPlanEntry, h1, h2, h3, h4, h5,
      pick_message, truthyStr, alFind_nil, Option.getD]

/-- C5 witness: the spec's example code `"ZZZ-NOT-A-REAL-CODE"` is in no
registry and resolves to label `"ZZZ-NOT-A-REAL-CODE"`, message `""`. -/
theorem unknown_code_resolution_witness :
    alFind Content.BEHAVIORAL_CORE_MESSAGES "ZZZ-NOT-A-REAL-CODE" = none ∧
    alFind Content.ACTION_PLANS "ZZZ-NOT-A-REAL-CODE" = none ∧
    mkRegistryEntry Content.BEHAVIORAL_CORE_MESSAGES "ZZZ-NOT-A-REAL-CODE" "Expert"
      = ⟨"ZZZ-NOT-A-REAL-CODE", "ZZZ-NOT-A-REAL-CODE", ""⟩ ∧
    mkSecurityEntry "ZZZ-NOT-A-REAL-CODE" "Expert"
      = ⟨"ZZZ-NOT-A-REAL-CODE", "ZZZ-NOT-A-REAL-CODE", "", "unknown"⟩ :=
  ⟨by decide, by decide,
    (unknown_code_resolution "ZZZ-NOT-A-REAL-CODE" "Expert"
      (by decide) (by decide) (by decide) (by decide) (by decide)).1,
    (unknown_code_resolution "ZZZ-NOT-A-REAL-CODE" "Expert"
      (by decide) (by decide) (by decide) (by decide) (by decide)).2.2.2.1⟩

/-- C1 (amended): `assemble_messages` appends the condition-specific security
rule of every matching active condition (none is dropped), but the generic
behavior-only rule is a fallback, not an addition — it is emitted exactly
when no active condition has a condition-specific rule for the behavioral
core. -/
theorem assemble_security_rules_amended (b : String) (conds : List String) :
    (∀ c ∈ conds, ∀ r, alFind Engine.SECURITY_RULES (b, some c) = some r →
        r ∈ Engine.assembleSecurityRules b conds) ∧
    ((conds.filterMap fun c => alFind Engine.SECURITY_RULES (b, some c)) = [] →
        Engine.assembleSecurityRules b conds = (alFind Engine.SECURITY_RULES (b, none)).toList) ∧
    ((conds.filterMap fun c => alFind Engine.SECURITY_RULES (b, some c)) ≠ [] →
        Engine.assembleSecurityRules b conds
          = conds.filterMap fun c => alFind Engine.SECURITY_RULES (b, some c)) := by
  refine ⟨?_, ?_, ?_⟩
  · intro c hc r hr
    have hmem : r ∈ conds.filterMap (fun c => alFind Engine.SECURITY_RULES (b, some c)) :=
      List.mem_filterMap.mpr ⟨c, hc, hr⟩
    simp only [Engine.assembleSecurityRules]
    split_ifs with h
    · rw [List.isEmpty_iff.mp h] at hmem
      cases hmem
    · exact hmem
  · intro h
    simp only [Engine.assembleSecurityRules, h]
    cases halt : alFind Engine.SECURITY_RULES (b, none) <;> simp [Option.toList]
  · intro h
    simp only [Engine.assembleSecurityRules]
    split_ifs with hh
    · exact absurd (List.isEmpty_iff.mp hh) h
    · rfl

/-- C1 counterexample: with behavioral core `PA` and active condition `CD`,
both a generic `(PA, None)` rule and a specific `(PA, "CD")` rule exist, yet
the assembled list holds only the condition-specific rule — the generic rule
is replaced, not kept alongside. -/
theorem assemble_security_rules_cex :
    alFind Engine.SECURITY_RULES ("PA", none) = some Engine.SEC_PA_GENERIC ∧
    alFind Engine.SECURITY_RULES ("PA", some "CD") = some Engine.SEC_PA_CD ∧
    Engine.assembleSecurityRules "PA" ["CD"] = [Engine.SEC_PA_CD] ∧
    Engine.SEC_PA_GENERIC ∉ Engine.assembleSecurityRules "PA" ["CD"] := by
  exact ⟨by decide, by decide, by decide, by decide⟩

/-- C1 witness: the amended statement applied at core `PA`, conditions
`["CD"]`. -/
theorem assemble_security_rules_amended_witness :
    ("CD" ∈ ["CD"]) ∧
    alFind Engine.SECURITY_RULES ("PA", some "CD") = some Engine.SEC_PA_CD ∧
    Engine.SEC_PA_CD ∈ Engine.assembleSecurityRules "PA" ["CD"] :=
  ⟨by decide, by decide,
    (assemble_security_rules_amended "PA" ["CD"]).1 "CD" (by decide)
      Engine.SEC_PA_CD (by decide)⟩

/-- Every entry of `dictInsert l k v` is the new binding or one of `l`. -/
theorem mem_dictInsert {κ α : Type} [DecidableEq κ] (l : List (κ × α)) (k : κ) (v : α) :
    ∀ e ∈ dictInsert l k v, e = (k, v) ∨ e ∈ l := by
  induction l with
  | nil =>
    intro e he
    simp only [dictInsert, List.mem_singleton] at he
    exact Or.inl he
  | cons hd t ih =>
    obtain ⟨k', v'⟩ := hd
    intro e he
    simp only [dictInsert] at he
    by_cases hk : k' = k
    · rw [if_pos hk] at he
      rcases List.mem_cons.mp he with h | h
      · exact Or.inl (by rw [h, hk])
      · exact Or.inr (List.mem_cons_of_mem _ h)
    · rw [if_neg hk] at he
      rcases List.mem_cons.mp he with h | h
      · exact Or.inr (h ▸ List.mem_cons_self _ _)
      · rcases ih e h with h1 | h1
        · exact Or.inl h1
        · exact Or.inr (List.mem_cons_of_mem _ h1)

/-- `clamp_driver` always lands in `{-1, 0, 1}`. -/
theorem clamp_driver_mem_range (v : PyVal) :
    clamp_driver v = -1 ∨ clamp_driver v = 0 ∨ clamp_driver v = 1 := by
  unfold clamp_driver
  cases h : pyToInt v with
  | none => simp
  | some i =>
    simp only []
    split_ifs with h1 h2
    · exact Or.inl rfl
    · exact Or.inr (Or.inr rfl)
    · omega

/-- Invariant of the `normalize_engagement_drivers` fold: every stored value
is a clamped value. -/
theorem foldl_driver_values (l : List (String × PyVal)) :
    ∀ (acc : List (String × Int)), (∀ pr ∈ acc, pr.2 = -1 ∨ pr.2 = 0 ∨ pr.2 = 1) →
    ∀ pr ∈ l.foldl (fun out kv => if sTrim kv.1 = "" then out
        else dictInsert out (sUpper (sTrim kv.1)) (clamp_driver kv.2)) acc,
      pr.2 = -1 ∨ pr.2 = 0 ∨ pr.2 = 1 := by
  induction l with
  | nil => intro acc hacc pr hpr; exact hacc pr hpr
  | cons hd t ih =>
    intro acc hacc pr hpr
    simp only [List.foldl_cons] at hpr
    refine ih _ ?_ pr hpr
    by_cases hb : sTrim hd.1 = ""
    · rw [if_pos hb]; exact hacc
    · rw [if_neg hb]
      intro e he
      rcases mem_dictInsert _ _ _ e he with h | h
      · rw [h]; exact clamp_driver_mem_range hd.2
      · exact hacc e h

/-- A raised `ValueError` short-circuits the rest of the driver loop. -/
theorem foldl_driverStep_error (l : List (String × Int)) (e : String) :
    l.foldl Engine.driverStep (Except.error e) = Except.error e := by
  induction l with
  | nil => rfl
  | cons hd t ih =>
    simp only [List.foldl_cons]
    rw [show Engine.driverStep (Except.error e) hd = Except.error e from rfl]
    exact ih

/-- If any driver of the list is outside `{-1, 0, 1}`, the loop ends in a
raise, whatever the accumulator. -/
theorem foldl_driverStep_invalid (l : List (String × Int)) :
    ∀ (acc : Except String (List (String × Int))) (d : String) (v : Int),
      (d, v) ∈ l → ¬(v = -1 ∨ v = 0 ∨ v = 1) →
      ∃ msg, l.foldl Engine.driverStep acc = Except.error msg := by
  induction l with
  | nil => intro _ _ _ h _; cases h
  | cons hd t ih =>
    intro acc d v hmem hv
    rcases List.mem_cons.mp hmem with h | h
    · obtain rfl : hd = (d, v) := h.symm
      simp only [List.foldl_cons]
      cases acc with
      | error e =>
        refine ⟨e, ?_⟩
        rw [show Engine.driverStep (Except.error e) (d, v) = Except.error e from rfl]
        exact foldl_driverStep_error t e
      | ok cs =>
        have hstep : Engine.driverStep (Except.ok cs) (d, v)
            = Except.error ("Driver " ++ d ++ " must be -1, 0, or 1; got " ++ toString v) := by
          simp only [Engine.driverStep]
          rw [if_neg hv]
        refine ⟨"Driver " ++ d ++ " must be -1, 0, or 1; got " ++ toString v, ?_⟩
        rw [hstep]
        exact foldl_driverStep_error t _
    · simp only [List.foldl_cons]
      exact ih _ d v h hv

/-- C6 (amended): `questions.clamp_driver` never raises and clamps to the
nearest bound — a non-numeric value becomes 0, a numeric value below `-1`
becomes `-1` and one above `1` becomes `1` (not 0 as claimed); every value
`normalize_engagement_drivers` stores is in `{-1, 0, 1}`.  By contrast,
`signatures_engine.normalize_codes` DOES surface an invalid driver value as a
runtime error: any driver outside `{-1, 0, 1}` makes it raise `ValueError`. -/
theorem clamp_driver_amended :
    (∀ v : PyVal, pyToInt v = none → clamp_driver v = 0) ∧
    (∀ i : Int, i < -1 → clamp_driver (PyVal.vint i) = -1) ∧
    (∀ i : Int, 1 < i → clamp_driver (PyVal.vint i) = 1) ∧
    (∀ v : PyVal, clamp_driver v = -1 ∨ clamp_driver v = 0 ∨ clamp_driver v = 1) ∧
    (∀ drivers : List (String × PyVal), ∀ pr ∈ normalize_engagement_drivers drivers,
        pr.2 = -1 ∨ pr.2 = 0 ∨ pr.2 = 1) ∧
    (∀ si : Engine.SignaturesInput, ∀ d : String, ∀ v : Int,
        (d, v) ∈ si.engagement_drivers → ¬(v = -1 ∨ v = 0 ∨ v = 1) →
        ∃ msg, Engine.normalize_codes si = Except.error msg) := by
  refine ⟨?_, ?_, ?_, clamp_driver_mem_range, ?_, ?_⟩
  · intro v h; unfold clamp_driver; rw [h]
  · intro i h
    unfold clamp_driver
    simp only [pyToInt]
    rw [if_pos h]
  · intro i h
    unfold clamp_driver
    simp only [pyToInt]
    rw [if_neg (by omega), if_pos h]
  · intro drivers
    unfold normalize_engagement_drivers
    exact foldl_driver_values drivers [] (by simp)
  · intro si d v hm hv
    unfold Engine.normalize_codes
    simp only []
    exact foldl_driverStep_invalid _ _ d v hm hv

/-- C6 counterexample: `clamp_driver(5) = 1` and `clamp_driver(-3) = -1` —
out-of-range numeric driver values are NOT stored as 0 — and
`normalize_codes` raises on a driver value of 5 rather than clamping it. -/
theorem clamp_driver_cex :
    clamp_driver (PyVal.vint 5) = 1 ∧
    clamp_driver (PyVal.vint (-3)) = -1 ∧
    (1 : Int) ≠ 0 ∧
    (Engine.normalize_codes demoInvalidSI).isOk = false := by
  exact ⟨by decide, by decide, by decide, by decide⟩

/-- C6 witness: the amended statement evaluated at concrete values. -/
theorem clamp_driver_amended_witness :
    pyToInt (PyVal.vstr "abc") = none ∧
    clamp_driver (PyVal.vstr "abc") = 0 ∧
    clamp_driver (PyVal.vint (-7)) = -1 ∧
    clamp_driver (PyVal.vint 5) = 1 ∧
    (("SE", (5 : Int)) ∈ demoInvalidSI.engagement_drivers) ∧
    (∃ msg, Engine.normalize_codes demoInvalidSI = Except.error msg) :=
  ⟨by decide, clamp_driver_amended.1 _ (by decide),
   clamp_driver_amended.2.1 (-7) (by decide),
   clamp_driver_amended.2.2.1 5 (by decide), by decide,
   clamp_driver_amended.2.2.2.2.2 demoInvalidSI "SE" 5 (by decide) (by decide)⟩

/-- C3: `build_signatures_output` applied to any question of the bank the
normalized loader builds raises `AttributeError` for every persona — the
loader stores plain dicts while the assembly body reads attributes
(`question.signatures_tags`), so assembly over loader output is never total;
it fails on every input. -/
theorem bank_question_assembly_raises (q : BankItem) (persona : String) :
    build_signatures_output_on_bank_question q persona
      = Except.error "AttributeError: dict object has no attribute signatures_tags" := rfl

/-- Appending an element when absent yields count exactly one, provided the
list held it at most once. -/
theorem count_insert_once {α : Type} [DecidableEq α] (x : α) (base : List α)
    (h : base.count x ≤ 1) :
    (if x ∈ base then base else base ++ [x]).count x = 1 ∧
    (if x ∈ base then base else base ++ [x]) ≠ [] := by
  by_cases hx : x ∈ base
  · rw [if_pos hx]
    have h1 : 0 < base.count x := List.count_pos_iff.mpr hx
    exact ⟨by omega, List.ne_nil_of_mem hx⟩
  · rw [if_neg hx]
    have h0 : base.count x = 0 := List.count_eq_zero.mpr hx
    constructor
    · rw [List.count_append, h0]
      simp
    · simp

/-- C10: for every persona and every preloaded question of the engine's
question bank (or no preloaded question at all), the `content_links` the
assembly produces contains the AHA My Life Check link exactly once — it is
appended at the end whenever not already present — and is in particular never
empty. -/
theorem mylifecheck_link_exactly_once (preloaded : Option Engine.PreQ) (persona : String)
    (h : preloaded = none ∨ ∃ q ∈ Engine.questionBank, preloaded = some q) :
    (Engine.assembleContentLinks preloaded persona).count Engine.ahaMYLIFECHECK = 1 ∧
    Engine.assembleContentLinks preloaded persona ≠ [] := by
  have hbank : ∀ q ∈ Engine.questionBank, q.links.count Engine.ahaMYLIFECHECK ≤ 1 := by
    decide
  rcases h with h | ⟨q, hq, h⟩
  · subst h
    simp only [Engine.assembleContentLinks]
    exact count_insert_once _ _ (by simp)
  · subst h
    simp only [Engine.assembleContentLinks]
    by_cases hp : persona ∈ q.answerPersonas
    · rw [if_pos hp]
      exact count_insert_once _ _ (hbank q hq)
    · rw [if_neg hp]
      exact count_insert_once _ _ (by simp)

/-- C10 witness: the property evaluated at the bank's first question
(`CKM-01`) and at the no-preload case. -/
theorem mylifecheck_link_exactly_once_witness :
    (Engine.assembleContentLinks
        (some (Engine.questionBank.headD
          { qid := "", category := "", question := "", behavioral_core := "",
            default_conditions := [], answerPersonas := [], links := [] }))
        "Director").count Engine.ahaMYLIFECHECK = 1 ∧
    Engine.assembleContentLinks none "Listener" ≠ [] :=
  ⟨(mylifecheck_link_exactly_once _ "Director"
      (Or.inr ⟨_, by decide, rfl⟩)).1,
   (mylifecheck_link_exactly_once none "Listener" (Or.inl rfl)).2⟩

/-- Membership in an insertion-sort insert. -/
theorem mem_insertBy {α : Type} (lt : α → α → Bool) (x : α) :
    ∀ (l : List α) (a : α), a ∈ insertBy lt x l ↔ a = x ∨ a ∈ l := by
  intro l
  induction l with
  | nil => intro a; simp [insertBy]
  | cons y ys ih =>
    intro a
    simp only [insertBy]
    by_cases h : lt y x
    · rw [if_pos h]
      simp only [List.mem_cons, ih]
      tauto
    · rw [if_neg h]
      exact List.mem_cons

/-- Sorting does not change membership. -/
theorem mem_sortBy {α : Type} (lt : α → α → Bool) :
    ∀ (l : List α) (a : α), a ∈ sortBy lt l ↔ a ∈ l := by
  intro l
  induction l with
  | nil => intro a; simp [sortBy]
  | cons x xs ih =>
    intro a
    simp only [sortBy, mem_insertBy, ih, List.mem_cons]

/-- Inversion of the per-question search step: a collected hit carries the
occurrence count of the query in the haystack, and that count is positive. -/
theorem searchHit?_eq_some (q : String) (cat : Option String) (kv : String × BankItem)
    (t : Nat × String × BankItem) (h : searchHit? q cat kv = some t) :
    t = (countOccs q (searchHay kv.2), kv.1, kv.2) ∧ 0 < countOccs q (searchHay kv.2) := by
  cases cat with
  | none =>
    simp only [searchHit?] at h
    split_ifs at h with h1
    exact ⟨(Option.some_injective _ h).symm, h1⟩
  | some c =>
    simp only [searchHit?] at h
    split_ifs at h with h0 h1
    exact ⟨(Option.some_injective _ h).symm, h1⟩

/-- One character-list is not below another: asymmetry of the Python string
order. -/
theorem listStrLt_asymm : ∀ (a b : List Char), listStrLt a b = true → listStrLt b a = false := by
  intro a
  induction a with
  | nil =>
    intro b h
    cases b with
    | nil => simp [listStrLt] at h
    | cons y ys => simp [listStrLt]
  | cons x xs ih =>
    intro b h
    cases b with
    | nil => simp [listStrLt] at h
    | cons y ys =>
      simp only [listStrLt] at h ⊢
      by_cases h1 : x.toNat < y.toNat
      · rw [if_neg (by omega), if_pos h1]
      · by_cases h2 : y.toNat < x.toNat
        · rw [if_neg h1, if_pos h2] at h
          simp at h
        · rw [if_neg h1, if_neg h2] at h
          rw [if_neg h2, if_neg h1]
          exact ih ys h

/-- Not-below is transitive for the Python string order. -/
theorem listStrLt_neg_trans :
    ∀ (a b c : List Char), listStrLt b a = false → listStrLt c b = false →
      listStrLt c a = false := by
  intro a
  induction a with
  | nil =>
    intro b c _ _
    cases c with
    | nil => rfl
    | cons z zs => rfl
  | cons x xs ih =>
    intro b c h1 h2
    cases b with
    | nil => simp [listStrLt] at h1
    | cons y ys =>
      cases c with
      | nil => simp [listStrLt] at h2
      | cons z zs =>
        simp only [listStrLt] at h1 h2 ⊢
        by_cases hyx : y.toNat < x.toNat
        · rw [if_pos hyx] at h1
          simp at h1
        · by_cases hzy : z.toNat < y.toNat
          · rw [if_pos hzy] at h2
            simp at h2
          · rw [if_neg (show ¬ z.toNat < x.toNat by omega)]
            by_cases hxz : x.toNat < z.toNat
            · rw [if_pos hxz]
            · rw [if_neg hyx, if_neg (show ¬ x.toNat < y.toNat by omega)] at h1
              rw [if_neg hzy, if_neg (show ¬ y.toNat < z.toNat by omega)] at h2
              rw [if_neg hxz]
              exact ih ys zs h1 h2

/-- Asymmetry of the ranking order `(-score, qid)`. -/
theorem hitLt_asymm (a b : Nat × String × BankItem) :
    hitLt a b = true → hitLt b a = false := by
  intro h
  simp only [hitLt, strLt] at h ⊢
  by_cases h1 : b.1 < a.1
  · rw [if_neg (by omega), if_pos h1]
  · by_cases h2 : a.1 < b.1
    · rw [if_neg h1, if_pos h2] at h
      simp at h
    · rw [if_neg h1, if_neg h2] at h
      rw [if_neg h2, if_neg h1]
      exact listStrLt_asymm _ _ h

/-- Not-below is transitive for the ranking order `(-score, qid)`. -/
theorem hitLt_neg_trans (a b c : Nat × String × BankItem) :
    hitLt b a = false → hitLt c b = false → hitLt c a = false := by
  intro h1 h2
  simp only [hitLt, strLt] at h1 h2 ⊢
  by_cases hab : a.1 < b.1
  · rw [if_pos hab] at h1
    simp at h1
  · by_cases hbc : b.1 < c.1
    · rw [if_pos hbc] at h2
      simp at h2
    · rw [if_neg (show ¬ a.1 < c.1 by omega)]
      by_cases hca : c.1 < a.1
      · rw [if_pos hca]
      · rw [if_neg hab, if_neg (show ¬ b.1 < a.1 by omega)] at h1
        rw [if_neg hbc, if_neg (show ¬ c.1 < b.1 by omega)] at h2
        rw [if_neg hca]
        exact listStrLt_neg_trans _ _ _ h1 h2

/-- Inserting keeps the elements: `insertBy` produces a permutation of the
element pushed onto the list. -/
theorem insertBy_perm {α : Type} (lt : α → α → Bool) (x : α) :
    ∀ l : List α, (insertBy lt x l).Perm (x :: l) := by
  intro l
  induction l with
  | nil => exact List.Perm.refl _
  | cons y ys ih =>
    simp only [insertBy]
    by_cases h : lt y x
    · rw [if_pos h]
      exact (List.Perm.cons y ih).trans (List.Perm.swap x y ys)
    · rw [if_neg h]

/-- The stable sort is a permutation of its input: no hit is dropped or
duplicated before truncation. -/
theorem sortBy_perm {α : Type} (lt : α → α → Bool) :
    ∀ l : List α, (sortBy lt l).Perm l := by
  intro l
  induction l with
  | nil => exact List.Perm.refl _
  | cons x xs ih =>
    simp only [sortBy]
    exact (insertBy_perm lt x (sortBy lt xs)).trans (List.Perm.cons x ih)

/-- Inserting into a list sorted by `lt` (no later element strictly below an
earlier one) keeps it sorted, given asymmetry and transitivity of
not-below. -/
theorem pairwise_insertBy {α : Type} (lt : α → α → Bool)
    (hasym : ∀ a b, lt a b = true → lt b a = false)
    (hntrans : ∀ a b c, lt b a = false → lt c b = false → lt c a = false) (x : α) :
    ∀ l : List α, l.Pairwise (fun a b => lt b a = false) →
      (insertBy lt x l).Pairwise (fun a b => lt b a = false) := by
  intro l
  induction l with
  | nil =>
    intro _
    simp [insertBy]
  | cons y ys ih =>
    intro hp
    rcases List.pairwise_cons.mp hp with ⟨hy, hys⟩
    simp only [insertBy]
    by_cases h : lt y x
    · rw [if_pos h]
      refine List.pairwise_cons.mpr ⟨?_, ih hys⟩
      intro z hz
      rcases (mem_insertBy lt x ys z).mp hz with rfl | hzys
      · exact hasym y z h
      · exact hy z hzys
    · have h' : lt y x = false := by revert h; cases lt y x <;> simp
      rw [if_neg h]
      refine List.pairwise_cons.mpr ⟨?_, hp⟩
      intro z hz
      rcases List.mem_cons.mp hz with rfl | hzys
      · exact h'
      · exact hntrans x y z h' (hy z hzys)

/-- The insertion sort sorts: in its output no later element is strictly
below an earlier one. -/
theorem pairwise_sortBy {α : Type} (lt : α → α → Bool)
    (hasym : ∀ a b, lt a b = true → lt b a = false)
    (hntrans : ∀ a b c, lt b a = false → lt c b = false → lt c a = false) :
    ∀ l : List α, (sortBy lt l).Pairwise (fun a b => lt b a = false) := by
  intro l
  induction l with
  | nil => simp [sortBy]
  | cons x xs ih =>
    simp only [sortBy]
    exact pairwise_insertBy lt hasym hntrans x (sortBy lt xs) ih

/-- Completeness of the per-question step: a bank question that passes the
category filter and whose haystack contains the query is collected, with its
occurrence count as score. -/
theorem searchHit?_of_match (q : String) (cat : Option String) (kv : String × BankItem)
    (hcat : cat = none ∨ cat = some (sUpper (sTrim kv.2.category)))
    (hmatch : 0 < countOccs q (searchHay kv.2)) :
    searchHit? q cat kv = some (countOccs q (searchHay kv.2), kv.1, kv.2) := by
  rcases hcat with hc | hc
  · rw [hc]
    simp only [searchHit?]
    rw [if_pos hmatch]
  · rw [hc]
    simp only [searchHit?]
    rw [if_neg (fun hne => hne rfl), if_pos hmatch]

/-- C9 (amended): search returns at most `max 1 limit` hits; every hit
corresponds to a bank question whose haystack — title, question text,
keywords and signature codes, but not persona messages — contains the
lower-cased query as a substring; the result is exactly the sorted hit list
truncated to that bound, where sorting drops or duplicates nothing (a
permutation of the collected hits) and ranks by strictly descending
occurrence count with ties broken by question id ascending; and the hit list
is complete — every in-category bank question containing the query is
collected with its occurrence count as score, and is returned whenever the
hits fit within the limit.  (There is no token-overlap fallback; ties are
broken by question id, not original order.) -/
theorem search_questions_amended (bank : List (String × BankItem)) (query : String)
    (category : Option String) (limit : Int) :
    (search_questions bank query category limit).length ≤ (max 1 limit).toNat ∧
    (∀ hit ∈ search_questions bank query category limit, ∃ e ∈ bank,
      hit = ⟨e.1, e.2.category, e.2.question⟩ ∧
      0 < countOccs (sLower (sTrim query)) (searchHay e.2)) ∧
    (sTrim query ≠ "" →
      search_questions bank query category limit
        = ((sortBy hitLt (searchHits bank query category)).take (max 1 limit).toNat).map
            (fun t => ⟨t.2.1, t.2.2.category, t.2.2.question⟩)) ∧
    (sortBy hitLt (searchHits bank query category)).Perm (searchHits bank query category) ∧
    (sortBy hitLt (searchHits bank query category)).Pairwise
      (fun a b => b.1 < a.1 ∨ (a.1 = b.1 ∧ strLt b.2.1 a.2.1 = false)) ∧
    (∀ e ∈ bank,
      (normCatFilter category = none ∨
        normCatFilter category = some (sUpper (sTrim e.2.category))) →
      0 < countOccs (normQuery query) (searchHay e.2) →
      (countOccs (normQuery query) (searchHay e.2), e.1, e.2)
        ∈ searchHits bank query category) ∧
    ((searchHits bank query category).length ≤ (max 1 limit).toNat →
      sTrim query ≠ "" →
      ∀ e ∈ bank,
        (normCatFilter category = none ∨
          normCatFilter category = some (sUpper (sTrim e.2.category))) →
        0 < countOccs (normQuery query) (searchHay e.2) →
        ({ id := e.1, category := e.2.category, question := e.2.question } : SearchHit)
          ∈ search_questions bank query category limit) := by
  have hdef : sTrim query ≠ "" →
      search_questions bank query category limit
        = ((sortBy hitLt (searchHits bank query category)).take (max 1 limit).toNat).map
            (fun t => ⟨t.2.1, t.2.2.category, t.2.2.question⟩) := by
    intro hq
    simp only [search_questions, if_neg hq]
    rfl
  have hcomplete : ∀ e ∈ bank,
      (normCatFilter category = none ∨
        normCatFilter category = some (sUpper (sTrim e.2.category))) →
      0 < countOccs (normQuery query) (searchHay e.2) →
      (countOccs (normQuery query) (searchHay e.2), e.1, e.2)
        ∈ searchHits bank query category := by
    intro e he hcat hmatch
    exact List.mem_filterMap.mpr ⟨e, he, searchHit?_of_match _ _ e hcat hmatch⟩
  refine ⟨?_, ?_, hdef, sortBy_perm hitLt _, ?_, hcomplete, ?_⟩
  · by_cases hq : sTrim query = ""
    · simp [search_questions, hq]
    · simp only [search_questions, if_neg hq]
      rw [List.length_map]
      exact List.length_take_le _ _
  · intro hit hmem
    by_cases hq : sTrim query = ""
    · simp [search_questions, hq] at hmem
    · simp only [search_questions, if_neg hq] at hmem
      rcases List.mem_map.mp hmem with ⟨t, ht, rfl⟩
      have ht2 := List.take_subset _ _ ht
      have ht3 := (mem_sortBy hitLt _ t).mp ht2
      rcases List.mem_filterMap.mp ht3 with ⟨kv, hkv, hsome⟩
      rcases searchHit?_eq_some _ _ _ _ hsome with ⟨rfl, hpos⟩
      exact ⟨kv, hkv, rfl, hpos⟩
  · refine List.Pairwise.imp ?_ (pairwise_sortBy hitLt hitLt_asymm hitLt_neg_trans _)
    intro a b hab
    simp only [hitLt] at hab
    by_cases h1 : a.1 < b.1
    · rw [if_pos h1] at hab
      simp at hab
    · by_cases h2 : b.1 < a.1
      · exact Or.inl h2
      · rw [if_neg h1, if_neg h2] at hab
        exact Or.inr ⟨by omega, hab⟩
  · intro hlen hq e he hcat hmatch
    have hmemhits := hcomplete e he hcat hmatch
    have hmemsorted :=
      (mem_sortBy hitLt (searchHits bank query category) _).mpr hmemhits
    have htake : (sortBy hitLt (searchHits bank query category)).take (max 1 limit).toNat
        = sortBy hitLt (searchHits bank query category) := by
      refine List.take_of_length_le ?_
      rw [(sortBy_perm hitLt (searchHits bank query category)).length_eq]
      exact hlen
    rw [hdef hq, htake]
    exact List.mem_map_of_mem
      (fun t : Nat × String × BankItem =>
        ({ id := t.2.1, category := t.2.2.category, question := t.2.2.question } : SearchHit))
      hmemsorted

/-- C9 counterexample: a question whose listener message contains
`"blood pressure"` but whose text, keywords and codes do not is NOT returned
by the search — persona message fields are not part of the haystack, refuting
the claimed match surface. -/
theorem search_questions_cex :
    0 < countOccs "blood pressure" (sLower (alGetD demoSearchItem.responses "listener" "")) ∧
    search_questions demoSearchBank "blood pressure" none 5 = [] := by
  exact ⟨by decide, by decide⟩

/-- C9 witness: the amended statement evaluated on a one-question bank where
the query does match the haystack, exercising the soundness, collection
completeness and result completeness parts. -/
theorem search_questions_amended_witness :
    (search_questions demoSearchBank "meds" none 5).length ≤ (max 1 (5 : Int)).toNat ∧
    search_questions demoSearchBank "meds" none 5
      = [{ id := "HT-01", category := "HT", question := "Do I need meds?" }] ∧
    (∃ e ∈ demoSearchBank,
      ({ id := "HT-01", category := "HT", question := "Do I need meds?" } : SearchHit)
          = ⟨e.1, e.2.category, e.2.question⟩ ∧
      0 < countOccs (sLower (sTrim "meds")) (searchHay e.2)) ∧
    ((countOccs (normQuery "meds") (searchHay demoSearchItem), "HT-01", demoSearchItem)
      ∈ searchHits demoSearchBank "meds" none) ∧
    ({ id := "HT-01", category := "HT", question := "Do I need meds?" } : SearchHit)
      ∈ search_questions demoSearchBank "meds" none 5 :=
  ⟨(search_questions_amended demoSearchBank "meds" none 5).1, by decide,
   (search_questions_amended demoSearchBank "meds" none 5).2.1
     { id := "HT-01", category := "HT", question := "Do I need meds?" } (by decide),
   (search_questions_amended demoSearchBank "meds" none 5).2.2.2.2.2.1
     ("HT-01", demoSearchItem) (by decide) (Or.inl rfl) (by decide),
   (search_questions_amended demoSearchBank "meds" none 5).2.2.2.2.2.2
     (by decide) (by decide) ("HT-01", demoSearchItem) (by decide) (Or.inl rfl) (by decide)⟩

/-- Keys after a dict insertion: unchanged when the key is present, appended
otherwise. -/
theorem keys_dictInsert {κ α : Type} [DecidableEq κ] (l : List (κ × α)) (k : κ) (v : α) :
    (dictInsert l k v).map Prod.fst =
      if k ∈ l.map Prod.fst then l.map Prod.fst else l.map Prod.fst ++ [k] := by
  induction l with
  | nil => simp [dictInsert]
  | cons hd t ih =>
    obtain ⟨k', v'⟩ := hd
    simp only [dictInsert]
    by_cases hk : k' = k
    · subst hk
      simp
    · have hkk : ¬ (k = k') := fun h => hk h.symm
      rw [if_neg hk]
      by_cases hm : k ∈ t.map Prod.fst
      · simp [ih, hm, hkk]
      · simp [ih, hm, hkk, List.cons_append]

/-- Dict insertion keeps the keys duplicate-free. -/
theorem keys_nodup_dictInsert {κ α : Type} [DecidableEq κ] (l : List (κ × α)) (k : κ) (v : α)
    (h : (l.map Prod.fst).Nodup) : ((dictInsert l k v).map Prod.fst).Nodup := by
  rw [keys_dictInsert]
  by_cases hm : k ∈ l.map Prod.fst
  · rw [if_pos hm]; exact h
  · rw [if_neg hm]
    refine List.Nodup.append h (List.nodup_singleton k) ?_
    simpa [List.disjoint_singleton] using hm

/-- The inserted key is among the keys. -/
theorem mem_keys_dictInsert_self {κ α : Type} [DecidableEq κ] (l : List (κ × α)) (k : κ) (v : α) :
    k ∈ (dictInsert l k v).map Prod.fst := by
  rw [keys_dictInsert]
  by_cases hm : k ∈ l.map Prod.fst <;> simp [hm]

/-- Existing keys survive a dict insertion. -/
theorem mem_keys_dictInsert_of_mem {κ α : Type} [DecidableEq κ] (l : List (κ × α))
    (k k0 : κ) (v : α) (h : k0 ∈ l.map Prod.fst) :
    k0 ∈ (dictInsert l k v).map Prod.fst := by
  rw [keys_dictInsert]
  by_cases hm : k ∈ l.map Prod.fst <;> simp [hm, h]

/-- Every entry after inserting a pack's questions either comes from the
starting bank or is the entry built for the `j`-th question (0-based) with id
`build_id pack_code (i + j)`. -/
theorem insertPack_forall (category pack_code : String) (sdef : List SourceDict)
    {P : String × BankItem → Prop} :
    ∀ (qs : List RawQuestion) (i : Nat) (bank : List (String × BankItem)),
      (∀ e ∈ bank, P e) →
      (∀ j q, qs[j]? = some q →
         P (build_id pack_code (i + j),
            mkBankItem category pack_code sdef (build_id pack_code (i + j)) q)) →
      ∀ e ∈ insertPackQuestions category pack_code sdef i qs bank, P e := by
  intro qs
  induction qs with
  | nil => intro i bank hbank _ e he; exact hbank e he
  | cons q0 qs ih =>
    intro i bank hbank hnew e he
    simp only [insertPackQuestions] at he
    refine ih (i + 1) _ ?_ ?_ e he
    · intro e' he'
      rcases mem_dictInsert _ _ _ e' he' with h | h
      · rw [h]
        have h0 := hnew 0 q0 (by simp)
        simpa using h0
      · exact hbank e' h
    · intro j q hj
      have hq := hnew (j + 1) q (by simpa using hj)
      have harith : i + (j + 1) = (i + 1) + j := by omega
      rw [harith] at hq
      exact hq

/-- Inserting a pack's questions keeps bank keys duplicate-free. -/
theorem insertPack_nodup (category pack_code : String) (sdef : List SourceDict) :
    ∀ (qs : List RawQuestion) (i : Nat) (bank : List (String × BankItem)),
      (bank.map Prod.fst).Nodup →
      ((insertPackQuestions category pack_code sdef i qs bank).map Prod.fst).Nodup := by
  intro qs
  induction qs with
  | nil => intro i bank h; exact h
  | cons q0 qs ih =>
    intro i bank h
    simp only [insertPackQuestions]
    exact ih (i + 1) _ (keys_nodup_dictInsert _ _ _ h)

/-- Bank keys survive the insertion of a pack's questions. -/
theorem insertPack_keys_mono (category pack_code : String) (sdef : List SourceDict) :
    ∀ (qs : List RawQuestion) (i : Nat) (bank : List (String × BankItem)) (k : String),
      k ∈ bank.map Prod.fst →
      k ∈ (insertPackQuestions category pack_code sdef i qs bank).map Prod.fst := by
  intro qs
  induction qs with
  | nil => intro i bank k h; exact h
  | cons q0 qs ih =>
    intro i bank k h
    simp only [insertPackQuestions]
    exact ih (i + 1) _ k (mem_keys_dictInsert_of_mem _ _ _ _ h)

/-- Each question position of an inserted pack contributes its id to the
bank keys. -/
theorem insertPack_keys_own (category pack_code : String) (sdef : List SourceDict) :
    ∀ (qs : List RawQuestion) (i : Nat) (bank : List (String × BankItem)) (j : Nat),
      j < qs.length →
      build_id pack_code (i + j)
        ∈ (insertPackQuestions category pack_code sdef i qs bank).map Prod.fst := by
  intro qs
  induction qs with
  | nil => intro i bank j h; simp at h
  | cons q0 qs ih =>
    intro i bank j h
    cases j with
    | zero =>
      simp only [insertPackQuestions]
      have hself := mem_keys_dictInsert_self bank (build_id pack_code i)
        (mkBankItem category pack_code sdef (build_id pack_code i) q0)
      have := insertPack_keys_mono category pack_code sdef qs (i + 1) _ _ hself
      simpa using this
    | succ j' =>
      simp only [insertPackQuestions]
      have harith : i + (j' + 1) = (i + 1) + j' := by omega
      rw [harith]
      exact ih (i + 1) _ j' (by simpa using h)

/-- Entry property transported through the pack fold of the loader. -/
theorem buildAux_forall {P : String × BankItem → Prop} :
    ∀ (ps : List Pack) (bank : List (String × BankItem)),
      (∀ e ∈ bank, P e) →
      (∀ p ∈ ps, ∀ j q, p.questions[j]? = some q →
        P (build_id (packCode p) (1 + j),
           mkBankItem (packCategoryRaw p) (packCode p) p.source_defaults
             (build_id (packCode p) (1 + j)) q)) →
      ∀ e ∈ ps.foldl (fun bank p =>
          insertPackQuestions (packCategoryRaw p) (packCode p) p.source_defaults
            1 p.questions bank) bank,
        P e := by
  intro ps
  induction ps with
  | nil => intro bank hbank _ e he; exact hbank e he
  | cons p ps ih =>
    intro bank hbank hps e he
    simp only [List.foldl_cons] at he
    refine ih _ ?_ ?_ e he
    · exact insertPack_forall _ _ _ _ 1 bank hbank
        (hps p (List.mem_cons_self _ _))
    · intro p' hp' j q hj
      exact hps p' (List.mem_cons_of_mem _ hp') j q hj

/-- Duplicate-freedom of keys transported through the pack fold. -/
theorem buildAux_nodup :
    ∀ (ps : List Pack) (bank : List (String × BankItem)),
      (bank.map Prod.fst).Nodup →
      ((ps.foldl (fun bank p =>
          insertPackQuestions (packCategoryRaw p) (packCode p) p.source_defaults
            1 p.questions bank) bank).map Prod.fst).Nodup := by
  intro ps
  induction ps with
  | nil => intro bank h; exact h
  | cons p ps ih =>
    intro bank h
    simp only [List.foldl_cons]
    exact ih _ (insertPack_nodup _ _ _ _ 1 bank h)

/-- Key presence transported through the pack fold. -/
theorem buildAux_keys_mono :
    ∀ (ps : List Pack) (bank : List (String × BankItem)) (k : String),
      k ∈ bank.map Prod.fst →
      k ∈ ((ps.foldl (fun bank p =>
          insertPackQuestions (packCategoryRaw p) (packCode p) p.source_defaults
            1 p.questions bank) bank).map Prod.fst) := by
  intro ps
  induction ps with
  | nil => intro bank k h; exact h
  | cons p ps ih =>
    intro bank k h
    simp only [List.foldl_cons]
    exact ih _ k (insertPack_keys_mono _ _ _ _ 1 bank k h)

/-- C7: for a pack collection in which every pack's normalized category
equals its slugged pack code — which holds for each of the nine surviving
entries of `questions.PACKS` — the built bank has duplicate-free ids, every
question's id is `"{category}-{NN}"` for a 1-based index within its pack's
encounter order, the question's stored category is exactly the id's stem
before the final `"-NN"`, and every encounter position of every pack
contributes its id to the bank. -/
theorem bank_id_invariants (packs : List Pack)
    (hcat : ∀ p ∈ packs, normCategory (packCategoryRaw p) (packCode p) = packCode p) :
    ((build_question_bank packs).map Prod.fst).Nodup ∧
    (∀ e ∈ build_question_bank packs, ∃ p ∈ packs, ∃ i, i < p.questions.length ∧
        e.2.category = packCode p ∧ e.1 = e.2.category ++ "-" ++ pad2 (i + 1)) ∧
    (∀ p ∈ packs, ∀ i, i < p.questions.length →
        build_id (packCode p) (i + 1) ∈ (build_question_bank packs).map Prod.fst) := by
  refine ⟨?_, ?_, ?_⟩
  · simp only [build_question_bank]
    exact buildAux_nodup packs [] (by simp)
  · simp only [build_question_bank]
    refine buildAux_forall packs [] (by simp) ?_
    intro p hp j q hj
    refine ⟨p, hp, j, (List.getElem?_eq_some.mp hj).1, ?_, ?_⟩
    · exact hcat p hp
    · show build_id (packCode p) (1 + j)
        = normCategory (packCategoryRaw p) (packCode p) ++ "-" ++ pad2 (j + 1)
      rw [hcat p hp, Nat.add_comm 1 j]
      rfl
  · intro p hp i hi
    obtain ⟨s, t, rfl⟩ := List.append_of_mem hp
    simp only [build_question_bank, List.foldl_append, List.foldl_cons]
    refine buildAux_keys_mono t _ _ ?_
    have h1 := insertPack_keys_own (packCategoryRaw p) (packCode p) p.source_defaults
      p.questions 1
      (s.foldl (fun bank p =>
          insertPackQuestions (packCategoryRaw p) (packCode p) p.source_defaults
            1 p.questions bank) [])
      i hi
    rw [Nat.add_comm 1 i] at h1
    exact h1

/-- C7 witness: the invariant instantiated on a concrete two-question pack,
with the bank's keys evaluated. -/
theorem bank_id_invariants_witness :
    ((build_question_bank demoPacks).map Prod.fst).Nodup ∧
    (build_question_bank demoPacks).map Prod.fst = ["CKM-01", "CKM-02"] :=
  ⟨(bank_id_invariants demoPacks (by decide)).1, by decide⟩

end SignaturesModel
